import Mathlib

/-!
# Verification of the bookshelf connector entity query engine

Shallow embedding of `packages/strapi-connector-bookshelf/lib/queries.js`:
the entity query engine (create / update / delete / find / search), the
component store (create/update/delete of nested component rows and their
polymorphic join-table rows) and the structural validators.

JavaScript values are modelled by the inductive `JVal`; machine state (entity
rows, component-instance rows, join rows, the relation-persistence log) by
`DBState`; fallible stateful operations by functions
`DBState → Except Err α × DBState`, where the state component records every
write performed up to the point of failure, so that transactional rollback
can be stated as the restoration of the input state.

External collaborators (bookshelf/knex, the filter-translation layer, the
relation-persistence collaborator) are modelled through narrow interfaces,
noted at each definition.
-/

namespace Strapi

/-- An error as thrown by `queries.js`: a message plus an HTTP-equivalent
status code (`err.status = 400` / `404`). -/
structure Err where
  message : String
  status : Nat
deriving Repr, DecidableEq

/-- JavaScript payload values: `null`, booleans, numbers (modelled as
integers), strings, arrays, and plain objects as association lists. -/
inductive JVal where
  | vnull : JVal
  | vbool : Bool → JVal
  | vnum : Int → JVal
  | vstr : String → JVal
  | varr : List JVal → JVal
  | vobj : List (String × JVal) → JVal
deriving Repr, BEq

open JVal

/-- `typeof v === 'object' && !Array.isArray(v) && v !== null`:
the "plain object" test used by the validators. -/
def JVal.isPlainObject : JVal → Bool
  | vobj _ => true
  | _ => false

/-- `typeof v === 'object' && !Array.isArray(v)`: true for plain objects and
for `null` (whose `typeof` is `'object'`), as in `validateNonRepeatableInput`. -/
def JVal.isObjectLike : JVal → Bool
  | vobj _ => true
  | vnull => true
  | _ => false

/-- `_.has(obj, key)` on a plain object; `false` on any non-object. -/
def JVal.hasField : JVal → String → Bool
  | vobj fields, key => fields.any (fun p => p.1 == key)
  | _, _ => false

/-- `obj[key]` on a plain object (`vnull` standing for `undefined`). -/
def JVal.getField : JVal → String → JVal
  | vobj fields, key => ((fields.find? (fun p => p.1 == key)).map Prod.snd).getD vnull
  | _, _ => vnull

/-- `_.omit(obj, [key])`. -/
def JVal.omitField : JVal → String → JVal
  | vobj fields, key => vobj (fields.filter (fun p => p.1 != key))
  | v, _ => v

/-- `v === null`. -/
def JVal.isNull : JVal → Bool
  | vnull => true
  | _ => false

/-- Strict string equality `v === c` between a payload value and a string
constant, false for any non-string value (as `Array.includes` compares). -/
def JVal.strEq (v : JVal) (c : String) : Bool :=
  match v with
  | vstr s => s == c
  | _ => false

/-- JavaScript truthiness of a payload value. -/
def JVal.truthy : JVal → Bool
  | vnull => false
  | vbool b => b
  | vnum n => n != 0
  | vstr s => s != ""
  | varr _ => true
  | vobj _ => true

/-- `v.toString()` for the values used as component-instance ids (numbers or
numeric strings), as applied by `deleteOldComponents` and
`deleteDynamicZoneOldComponents`. -/
def JVal.idString : JVal → String
  | vnum n => toString n
  | vstr s => s
  | _ => ""

/-- Attribute metadata for one component/dynamiczone field of a model, from
the model registry (`model.attributes[key]`). `min`/`max` are `none` when not
configured; JavaScript truthiness (`min && …`) makes a configured `0` behave
as unconfigured. -/
structure AttrDef where
  type : String
  component : String := ""
  components : List String := []
  required : Bool := false
  repeatable : Bool := false
  min : Option Nat := none
  max : Option Nat := none
deriving Repr, DecidableEq

/-- JavaScript truthiness of a `min`/`max` configuration value. -/
def natTruthy : Option Nat → Bool
  | some n => n != 0
  | none => false

/-- The configured number, `0` when absent (only read under `natTruthy`). -/
def natVal : Option Nat → Nat
  | some n => n
  | none => 0

/-- `validateRepeatableInput(value, { key, min, max, required })`
(queries.js): value must be an array of plain non-array non-null objects;
then the conditional min check and the max check, guarded by JavaScript
truthiness of `min` / `max`. -/
def validateRepeatableInput (value : JVal) (key : String) (attr : AttrDef) :
    Except Err Unit :=
  match value with
  | varr items =>
    if items.all (fun v => v.isPlainObject) then
      if (attr.required || (!attr.required && items.length > 0))
          && natTruthy attr.min && decide (items.length < natVal attr.min) then
        Except.error ⟨"Component " ++ key ++ " must contain at least " ++
          toString (natVal attr.min) ++ " items", 400⟩
      else if natTruthy attr.max && decide (items.length > natVal attr.max) then
        Except.error ⟨"Component " ++ key ++ " must contain at most " ++
          toString (natVal attr.max) ++ " items", 400⟩
      else
        Except.ok ()
    else
      Except.error ⟨"Component " ++ key ++
        " has invalid items. Expected each items to be objects", 400⟩
  | _ =>
    Except.error ⟨"Component " ++ key ++ " is repetable. Expected an array", 400⟩

/-- `validateNonRepeatableInput(value, { key, required })` (queries.js):
value must be object-like (a plain object or `null`); a required `null` is
rejected. -/
def validateNonRepeatableInput (value : JVal) (key : String) (attr : AttrDef) :
    Except Err Unit :=
  if !value.isObjectLike then
    Except.error ⟨"Component " ++ key ++ " should be an object", 400⟩
  else if attr.required && value.isNull then
    Except.error ⟨"Component " ++ key ++ " is required", 400⟩
  else
    Except.ok ()

/-- The per-item shape check of `validateDynamiczoneInput`: a plain object,
carrying `__component`, whose `__component` is among the allowed component
identifiers. Returns the first failing check's error. -/
def dynamiczoneItemCheck (key : String) (components : List String) (v : JVal) :
    Except Err Unit :=
  if !v.isPlainObject then
    Except.error ⟨"Dynamiczone " ++ key ++
      " has invalid items. Expected each items to be objects", 400⟩
  else if !v.hasField "__component" then
    Except.error ⟨"Dynamiczone " ++ key ++
      " has invalid items. Expected each items to have a valid __component key", 400⟩
  else if components.all (fun c => !(v.getField "__component").strEq c) then
    Except.error ⟨"Dynamiczone " ++ key ++
      " has invalid items. Each item must have a __component key that is present in the attribute definition", 400⟩
  else
    Except.ok ()

/-- `validateDynamiczoneInput(value, { key, min, max, components, required })`
(queries.js): an array of plain objects each with an allowed `__component`
discriminant, then the conditional min check and the max check. -/
def validateDynamiczoneInput (value : JVal) (key : String) (attr : AttrDef) :
    Except Err Unit :=
  match value with
  | varr items =>
    match items.findSome? (fun v =>
        match dynamiczoneItemCheck key attr.components v with
        | Except.error e => some e
        | Except.ok _ => none) with
    | some e => Except.error e
    | none =>
      if (attr.required || (!attr.required && items.length > 0))
          && natTruthy attr.min && decide (items.length < natVal attr.min) then
        Except.error ⟨"Dynamiczone " ++ key ++ " must contain at least " ++
          toString (natVal attr.min) ++ " items", 400⟩
      else if natTruthy attr.max && decide (items.length > natVal attr.max) then
        Except.error ⟨"Dynamiczone " ++ key ++ " must contain at most " ++
          toString (natVal attr.max) ++ " items", 400⟩
      else
        Except.ok ()
  | _ =>
    Except.error ⟨"Dynamiczone " ++ key ++ " is invalid. Expected an array", 400⟩

example : validateRepeatableInput (varr [vobj []]) "k"
    { type := "component", max := some 0 } = Except.ok () := rfl

/-- Component-model metadata from the registry (`strapi.components[uid]`). -/
structure ComponentModel where
  uid : String
  collectionName : String
  primaryKey : String := "id"
deriving Repr, DecidableEq

/-- Association metadata (`model.associations[i]`): `aliasName` models the
JS `alias` property, `nature` the relation nature string. -/
structure Association where
  aliasName : String
  nature : String
deriving Repr, DecidableEq

/-- The model metadata consumed by `createQueryBuilder`: primary key name,
the full attribute map (`model.attributes` / bookshelf's `model._attributes`),
associations, the key set of `model.allAttributes` (own plus inherited),
`options.timestamps`, and the connection's dialect
(`strapi.connections[model.connection].context.client.config.client`,
also read as `model.client` by the search builder). -/
structure Model where
  primaryKey : String := "id"
  attributes : List (String × AttrDef)
  associations : List Association
  allAttributes : List String
  timestamps : List String
  client : String
deriving Repr

/-- The component registry `strapi.components`, keyed by uid. -/
structure Registry where
  components : List ComponentModel
deriving Repr

/-- `strapi.components[uid]`. -/
def Registry.lookup (reg : Registry) (uid : String) : Option ComponentModel :=
  reg.components.find? (fun c => c.uid == uid)

/-- `Object.keys(strapi.components).find(key => collectionName matches)`,
the reverse lookup used by `deleteDynamicZoneOldComponents`. -/
def Registry.byCollection (reg : Registry) (collectionName : String) :
    Option ComponentModel :=
  reg.components.find? (fun c => c.collectionName == collectionName)

/-- `assocKeys`: the association aliases of the model. -/
def assocKeys (m : Model) : List String :=
  m.associations.map (fun a => a.aliasName)

/-- `componentKeys` with their attribute metadata: the attributes whose type
is `dynamiczone` or `component`, in declaration order. -/
def componentAttrs (m : Model) : List (String × AttrDef) :=
  m.attributes.filter (fun p => p.2.type == "dynamiczone" || p.2.type == "component")

/-- `_.has(values, key)` on a payload object. -/
def hasKey (values : List (String × JVal)) (key : String) : Bool :=
  values.any (fun p => p.1 == key)

/-- `values[key]` on a payload object (`vnull` standing for `undefined`). -/
def lookupVal (values : List (String × JVal)) (key : String) : JVal :=
  ((values.find? (fun p => p.1 == key)).map Prod.snd).getD vnull

/-- `pickRelations(values)`: the subset of payload keys that are declared
association aliases. -/
def pickRelations (m : Model) (values : List (String × JVal)) :
    List (String × JVal) :=
  values.filter (fun p => (assocKeys m).contains p.1)

/-- `selectAttributes(values)`: payload entries that are not timestamps, not
association or component keys, and are declared in `model.allAttributes`. -/
def selectAttributes (m : Model) (values : List (String × JVal)) :
    List (String × JVal) :=
  values.filter (fun p =>
    !m.timestamps.contains p.1 &&
    !((assocKeys m).contains p.1 || (componentAttrs m).any (fun q => q.1 == p.1)) &&
    m.allAttributes.contains p.1)

/-- An entity row in the model's primary table. -/
structure EntityRow where
  id : Nat
  attrs : List (String × JVal)
deriving Repr, BEq

/-- A row of the polymorphic components join table: owning entity id,
`component_type` (the component model's collection name), `component_id`,
owning `field`, and 1-based `order`. -/
structure JoinRow where
  entryId : Nat
  componentType : String
  componentId : Nat
  field : String
  order : Nat
deriving Repr, DecidableEq

/-- A component-instance row in a component model's own table. -/
structure CompRow where
  uid : String
  id : Nat
  data : JVal
deriving Repr, BEq

/-- One call to the external relation-persistence collaborator
`model.updateRelations({ id, values })`, recorded as a log entry. -/
structure RelWrite where
  entryId : Nat
  values : List (String × JVal)
deriving Repr, BEq

/-- Database state: entity rows, component-instance rows, join rows, the log
of relation-persistence calls, and the backend's id sequence. -/
structure DBState where
  entities : List EntityRow
  compRows : List CompRow
  joins : List JoinRow
  relLog : List RelWrite
  nextId : Nat
deriving Repr, BEq

/-- A fallible stateful operation. The state component records every write
performed before a failure, so that transactional rollback is observable. -/
abbrev DBRun (α : Type) := DBState → Except Err α × DBState

/-- `where id = n` comparison between a supplied id value and a stored row
id (the database coerces numeric strings). -/
def idMatches (v : JVal) (n : Nat) : Bool :=
  v.idString == toString n

/-- `strapi.query(uid).create(value)` for a component model: inserts a fresh
row holding the item's data and returns its backend-assigned id. -/
def compCreate (uid : String) (data : JVal) (s : DBState) : Nat × DBState :=
  (s.nextId,
   { s with
     nextId := s.nextId + 1
     compRows := s.compRows ++ [⟨uid, s.nextId, data⟩] })

/-- Patch semantics of a scalar update: entries of `newFields` override the
old ones (the primary-key entry itself is never stored as data). -/
def patchFields (old newFields : List (String × JVal)) (pk : String) :
    List (String × JVal) :=
  old.filter (fun p => !newFields.any (fun q => q.1 == p.1)) ++
    newFields.filter (fun p => p.1 != pk)

/-- `strapi.query(uid).update({ [pk]: idVal }, value)` for a component model:
locate the row by primary key — its own `update` throws `entry.notFound`
with status 404 when no row matches — then patch its data in place and
return its id. -/
def compPatch (uid : String) (pk : String) (idVal : JVal) (value : JVal) :
    DBRun Nat := fun s =>
  match s.compRows.find? (fun r => r.uid == uid && idMatches idVal r.id) with
  | none => (Except.error ⟨"entry.notFound", 404⟩, s)
  | some row =>
    let newData :=
      match row.data, value with
      | vobj oldF, vobj newF => vobj (patchFields oldF newF pk)
      | _, v => v
    (Except.ok row.id,
     { s with
       compRows := s.compRows.map (fun r =>
         if r.uid == uid && r.id == row.id then { r with data := newData } else r) })

/-- `joinModel.forge().save({...})`: insert a join row. -/
def joinInsert (row : JoinRow) (s : DBState) : DBState :=
  { s with joins := s.joins ++ [row] }

/-- `joinModel.where({fk, component_type, component_id, field}).save({order},
{ patch: true, require: false })`: patch `order` on every matching join row;
no error and no insert when none matches. -/
def joinPatchOrder (eid : Nat) (ctype : String) (cid : Nat) (field : String)
    (order : Nat) (s : DBState) : DBState :=
  { s with
    joins := s.joins.map (fun j =>
      if j.entryId == eid && j.componentType == ctype && j.componentId == cid &&
          j.field == field then
        { j with order := order }
      else j) }

/-- The join rows currently linking `(entry, field)`. -/
def joinsFor (s : DBState) (eid : Nat) (field : String) : List JoinRow :=
  s.joins.filter (fun j => j.entryId == eid && j.field == field)

/-- `createComponentAndLink` (both in `createComponents` and the create
branch of `updateOrCreateComponentAndLink`): create the component instance,
then insert the join row at `(field, order)`. -/
def createComponentAndLink (cm : ComponentModel) (eid : Nat) (value : JVal)
    (key : String) (order : Nat) (s : DBState) : DBState :=
  let created := compCreate cm.uid value s
  joinInsert ⟨eid, cm.collectionName, created.1, key, order⟩ created.2

/-- The error standing for a JavaScript `TypeError` crash on a component
registry miss (`strapi.components[x]` undefined, then dereferenced); a
`BackendFailure`, never a classified 400/404 error. -/
def typeErr : Err := ⟨"TypeError", 500⟩

/-- The item loop of the repeatable branch of `createComponents`:
`componentValue.map((value, idx) => createComponentAndLink({..., order: idx + 1}))`.
Issued as `Promise.all` in JS; modelled sequentially, which yields the same
rows (spec §5: completion order is irrelevant, `order` encodes sequence). -/
def createRepeatableItems (cm : ComponentModel) (eid : Nat) (key : String) :
    List JVal → Nat → DBState → DBState
  | [], _, s => s
  | v :: rest, ord, s =>
    createRepeatableItems cm eid key rest (ord + 1)
      (createComponentAndLink cm eid v key ord s)

/-- The item loop of the dynamiczone branch of `createComponents`: look up
each item's component model from its `__component` discriminant, strip the
discriminant, create and link at `order = idx + 1`. -/
def createDZItems (reg : Registry) (eid : Nat) (key : String) :
    List JVal → Nat → DBRun Unit
  | [], _ => fun s => (Except.ok (), s)
  | v :: rest, ord => fun s =>
    match reg.lookup (v.getField "__component").idString with
    | none => (Except.error typeErr, s)
    | some cm =>
      createDZItems reg eid key rest (ord + 1)
        (createComponentAndLink cm eid (v.omitField "__component") key ord s)

/-- One iteration of the `for (let key of componentKeys)` loop of
`createComponents`: required/absence checks, validation, then creation of
instances and join rows. -/
def createComponentsKey (reg : Registry) (eid : Nat)
    (values : List (String × JVal)) (key : String) (attr : AttrDef) :
    DBRun Unit := fun s =>
  match attr.type with
  | "component" =>
    if attr.required && !hasKey values key then
      (Except.error ⟨"Component " ++ key ++ " is required", 400⟩, s)
    else if !hasKey values key then (Except.ok (), s)
    else
      let componentValue := lookupVal values key
      if attr.repeatable then
        match validateRepeatableInput componentValue key attr with
        | Except.error e => (Except.error e, s)
        | Except.ok _ =>
          match reg.lookup attr.component with
          | none => (Except.error typeErr, s)
          | some cm =>
            match componentValue with
            | varr items => (Except.ok (), createRepeatableItems cm eid key items 1 s)
            | _ => (Except.ok (), s)
      else
        match validateNonRepeatableInput componentValue key attr with
        | Except.error e => (Except.error e, s)
        | Except.ok _ =>
          if componentValue.isNull then (Except.ok (), s)
          else
            match reg.lookup attr.component with
            | none => (Except.error typeErr, s)
            | some cm =>
              (Except.ok (), createComponentAndLink cm eid componentValue key 1 s)
  | "dynamiczone" =>
    if attr.required && !hasKey values key then
      (Except.error ⟨"Dynamiczone " ++ key ++ " is required", 400⟩, s)
    else if !hasKey values key then (Except.ok (), s)
    else
      let dzValues := lookupVal values key
      match validateDynamiczoneInput dzValues key attr with
      | Except.error e => (Except.error e, s)
      | Except.ok _ =>
        match dzValues with
        | varr items => createDZItems reg eid key items 1 s
        | _ => (Except.ok (), s)
  | _ => (Except.ok (), s)

/-- Sequential iteration over the model's component keys, stopping at the
first error (a thrown error aborts the enclosing `async` loop). -/
def runKeys (step : String → AttrDef → DBRun Unit) :
    List (String × AttrDef) → DBRun Unit
  | [] => fun s => (Except.ok (), s)
  | (key, attr) :: rest => fun s =>
    match step key attr s with
    | (Except.ok _, s1) => runKeys step rest s1
    | (Except.error e, s1) => (Except.error e, s1)

/-- `createComponents(entry, values)`: iterate the component keys (a no-op
when the model has none). -/
def createComponents (reg : Registry) (m : Model) (eid : Nat)
    (values : List (String × JVal)) : DBRun Unit :=
  runKeys (createComponentsKey reg eid values) (componentAttrs m)

/-- `updateOrCreateComponentAndLink`: an item carrying the component model's
primary key patches that component instance in place and patches its join
row's `order`; an item without it creates a new instance and join row. -/
def updateOrCreateComponentAndLink (cm : ComponentModel) (eid : Nat)
    (key : String) (value : JVal) (order : Nat) : DBRun Unit := fun s =>
  if value.hasField cm.primaryKey then
    match compPatch cm.uid cm.primaryKey (value.getField cm.primaryKey) value s with
    | (Except.error e, s1) => (Except.error e, s1)
    | (Except.ok cid, s1) =>
      (Except.ok (), joinPatchOrder eid cm.collectionName cid key order s1)
  else
    (Except.ok (), createComponentAndLink cm eid value key order s)

/-- The item loop of the repeatable branch of `updateComponents`. -/
def updateRepeatableItems (cm : ComponentModel) (eid : Nat) (key : String) :
    List JVal → Nat → DBRun Unit
  | [], _ => fun s => (Except.ok (), s)
  | v :: rest, ord => fun s =>
    match updateOrCreateComponentAndLink cm eid key v ord s with
    | (Except.ok _, s1) => updateRepeatableItems cm eid key rest (ord + 1) s1
    | (Except.error e, s1) => (Except.error e, s1)

/-- The item loop of the dynamiczone branch of `updateComponents`. -/
def updateDZItems (reg : Registry) (eid : Nat) (key : String) :
    List JVal → Nat → DBRun Unit
  | [], _ => fun s => (Except.ok (), s)
  | v :: rest, ord => fun s =>
    match reg.lookup (v.getField "__component").idString with
    | none => (Except.error typeErr, s)
    | some cm =>
      match updateOrCreateComponentAndLink cm eid key
          (v.omitField "__component") ord s with
      | (Except.ok _, s1) => updateDZItems reg eid key rest (ord + 1) s1
      | (Except.error e, s1) => (Except.error e, s1)

/-- `deleteOldComponents(entry, componentValue, {key, joinModel,
componentModel})`: the ids the caller wants to keep are the supplied items'
primary keys (as strings); the existing ids are the `component_id`s of the
join rows of `(entry, field)`; any kept id not among the existing ids is a
referential-integrity violation (400, "not related to the entity"); the
remaining existing ids are deleted — their join rows by
`whereIn('component_id', ids).andWhere('field', key)` (no entity filter in
the source) and their instances by `delete({ [pk + '_in']: ids })`.
`componentArrOf` is the `Array.isArray(componentValue) ? componentValue :
[componentValue]` normalization. -/
def componentArrOf (componentValue : JVal) : List JVal :=
  match componentValue with
  | varr xs => xs
  | v => [v]

/-- `idsToKeep` of `deleteOldComponents`: the primary keys supplied in the
new items, as strings. -/
def suppliedIds (componentValue : JVal) (cm : ComponentModel) : List String :=
  ((componentArrOf componentValue).filter (fun el => el.hasField cm.primaryKey)).map
    (fun el => (el.getField cm.primaryKey).idString)

/-- `allIds` of `deleteOldComponents`: the component ids currently joined to
`(entry, field)`, as strings. -/
def existingIds (s : DBState) (eid : Nat) (key : String) : List String :=
  (joinsFor s eid key).map (fun j => toString j.componentId)

def deleteOldComponents (eid : Nat) (componentValue : JVal) (key : String)
    (cm : ComponentModel) : DBRun Unit := fun s =>
  let idsToKeep := suppliedIds componentValue cm
  let allIds := existingIds s eid key
  if idsToKeep.all (fun id => allIds.contains id) then
    let idsToDelete := allIds.filter (fun id => !idsToKeep.contains id)
    if idsToDelete.length > 0 then
      (Except.ok (),
       { s with
         joins := s.joins.filter (fun j =>
           !(idsToDelete.contains (toString j.componentId) && j.field == key))
         compRows := s.compRows.filter (fun r =>
           !(r.uid == cm.uid && idsToDelete.contains (toString r.id))) })
    else (Except.ok (), s)
  else
    (Except.error ⟨"Some of the provided components in " ++ key ++
      " are not related to the entity", 400⟩, s)

/-- The `reduce` building `idsToKeep` in `deleteDynamicZoneOldComponents`:
items carrying their component model's primary key contribute the pair
(id as string, component model); the component model is looked up from the
item's `__component` discriminant. -/
def dzIdsToKeep (reg : Registry) :
    List JVal → Except Err (List (String × ComponentModel))
  | [] => Except.ok []
  | v :: rest =>
    match reg.lookup (v.getField "__component").idString with
    | none => Except.error typeErr
    | some cm =>
      match dzIdsToKeep reg rest with
      | Except.error e => Except.error e
      | Except.ok acc =>
        if v.hasField cm.primaryKey then
          Except.ok ((((v.getField cm.primaryKey).idString), cm) :: acc)
        else Except.ok acc

/-- The `map` building `allIds` in `deleteDynamicZoneOldComponents`: each
join row of `(entry, field)` contributes (component id as string, component
model found by reverse collection-name lookup). -/
def dzAllIds (reg : Registry) :
    List JoinRow → Except Err (List (String × ComponentModel))
  | [] => Except.ok []
  | j :: rest =>
    match reg.byCollection j.componentType with
    | none => Except.error typeErr
    | some cm =>
      match dzAllIds reg rest with
      | Except.error e => Except.error e
      | Except.ok acc => Except.ok ((toString j.componentId, cm) :: acc)

/-- Membership of an (id, component) pair in a list of pairs, compared as in
the source: equal id strings and equal component uids. -/
def dzMem (l : List (String × ComponentModel)) (p : String × ComponentModel) :
    Bool :=
  l.any (fun q => q.1 == p.1 && q.2.uid == p.2.uid)

/-- `deleteDynamicZoneOldComponents(entry, values, {key, joinModel})`: like
`deleteOldComponents`, but kept/existing ids are matched as
(component instance id, component type) pairs; join rows of the deleted
pairs are destroyed by `(field, component_id, component_type)` (again with
no entity filter in the source), and each deleted instance is removed from
its own component table. -/
def deleteDynamicZoneOldComponents (reg : Registry) (eid : Nat)
    (values : List JVal) (key : String) : DBRun Unit := fun s =>
  match dzIdsToKeep reg values with
  | Except.error e => (Except.error e, s)
  | Except.ok idsToKeep =>
    match dzAllIds reg (joinsFor s eid key) with
    | Except.error e => (Except.error e, s)
    | Except.ok allIds =>
      if idsToKeep.all (fun p => dzMem allIds p) then
        let idsToDelete := allIds.filter (fun p => !dzMem idsToKeep p)
        if idsToDelete.length > 0 then
          (Except.ok (),
           { s with
             joins := s.joins.filter (fun j =>
               !(j.field == key && idsToDelete.any (fun p =>
                 toString j.componentId == p.1 &&
                 j.componentType == p.2.collectionName)))
             compRows := s.compRows.filter (fun r =>
               !idsToDelete.any (fun p =>
                 r.uid == p.2.uid && toString r.id == p.1)) })
        else (Except.ok (), s)
      else
        (Except.error ⟨"Some of the provided components in " ++ key ++
          " are not related to the entity", 400⟩, s)

/-- One iteration of the `for (let key of componentKeys)` loop of
`updateComponents`: keys absent from the payload are skipped untouched;
present keys are validated, old components reconciled away, then each item
updated-or-created. -/
def updateComponentsKey (reg : Registry) (eid : Nat)
    (values : List (String × JVal)) (key : String) (attr : AttrDef) :
    DBRun Unit := fun s =>
  if !hasKey values key then (Except.ok (), s)
  else
    match attr.type with
    | "component" =>
      let componentValue := lookupVal values key
      if attr.repeatable then
        match validateRepeatableInput componentValue key attr with
        | Except.error e => (Except.error e, s)
        | Except.ok _ =>
          match reg.lookup attr.component with
          | none => (Except.error typeErr, s)
          | some cm =>
            match deleteOldComponents eid componentValue key cm s with
            | (Except.error e, s1) => (Except.error e, s1)
            | (Except.ok _, s1) =>
              match componentValue with
              | varr items => updateRepeatableItems cm eid key items 1 s1
              | _ => (Except.ok (), s1)
      else
        match validateNonRepeatableInput componentValue key attr with
        | Except.error e => (Except.error e, s)
        | Except.ok _ =>
          match reg.lookup attr.component with
          | none => (Except.error typeErr, s)
          | some cm =>
            match deleteOldComponents eid componentValue key cm s with
            | (Except.error e, s1) => (Except.error e, s1)
            | (Except.ok _, s1) =>
              if componentValue.isNull then (Except.ok (), s1)
              else updateOrCreateComponentAndLink cm eid key componentValue 1 s1
    | "dynamiczone" =>
      let dzValues := lookupVal values key
      match validateDynamiczoneInput dzValues key attr with
      | Except.error e => (Except.error e, s)
      | Except.ok _ =>
        match dzValues with
        | varr items =>
          match deleteDynamicZoneOldComponents reg eid items key s with
          | (Except.error e, s1) => (Except.error e, s1)
          | (Except.ok _, s1) => updateDZItems reg eid key items 1 s1
        | _ => (Except.ok (), s)
    | _ => (Except.ok (), s)

/-- `updateComponents(entry, values)`: iterate the component keys (a no-op
when the model has none). -/
def updateComponents (reg : Registry) (m : Model) (eid : Nat)
    (values : List (String × JVal)) : DBRun Unit :=
  runKeys (updateComponentsKey reg eid values) (componentAttrs m)

/-- The dynamiczone inner loop of `deleteComponents`: for each allowed
component type, delete the instances whose join rows carry its collection
name (one batched delete per component model, only when non-empty). -/
def deleteDZInstances (reg : Registry) (componentJoins : List JoinRow) :
    List String → DBRun Unit
  | [] => fun s => (Except.ok (), s)
  | compo :: rest => fun s =>
    match reg.lookup compo with
    | none => (Except.error typeErr, s)
    | some cm =>
      let toDelete := componentJoins.filter (fun j => j.componentType == cm.collectionName)
      if toDelete.length > 0 then
        deleteDZInstances reg componentJoins rest
          { s with
            compRows := s.compRows.filter (fun r =>
              !(r.uid == cm.uid && toDelete.any (fun j => j.componentId == r.id))) }
      else deleteDZInstances reg componentJoins rest s

/-- One iteration of the `for (let key of componentKeys)` loop of
`deleteComponents`: delete every component instance referenced by the join
rows of `(entry, field)`, then destroy those join rows. -/
def deleteComponentsKey (reg : Registry) (eid : Nat) (key : String)
    (attr : AttrDef) : DBRun Unit := fun s =>
  match attr.type with
  | "component" =>
    match reg.lookup attr.component with
    | none => (Except.error typeErr, s)
    | some cm =>
      let ids := (joinsFor s eid key).map (fun j => j.componentId)
      (Except.ok (),
       { s with
         compRows := s.compRows.filter (fun r =>
           !(r.uid == cm.uid && ids.contains r.id))
         joins := s.joins.filter (fun j => !(j.entryId == eid && j.field == key)) })
  | "dynamiczone" =>
    let componentJoins := joinsFor s eid key
    match deleteDZInstances reg componentJoins attr.components s with
    | (Except.error e, s1) => (Except.error e, s1)
    | (Except.ok _, s1) =>
      (Except.ok (),
       { s1 with
         joins := s1.joins.filter (fun j => !(j.entryId == eid && j.field == key)) })
  | _ => (Except.ok (), s)

/-- `deleteComponents(entry)`: iterate the component keys (a no-op when the
model has none). -/
def deleteComponents (reg : Registry) (m : Model) (eid : Nat) : DBRun Unit :=
  runKeys (deleteComponentsKey reg eid) (componentAttrs m)

/-- `wrapTransaction(fn, { transacting })`: the `mssql` dialect bypasses
opening a transaction; an already-open handle is reused; otherwise a fresh
transaction is opened, whose rollback on failure restores the input state. -/
def wrapTransaction {α : Type} (m : Model) (transacting : Bool)
    (fn : DBRun α) : DBRun α := fun s =>
  if m.client == "mssql" then fn s
  else if transacting then fn s
  else
    match fn s with
    | (Except.ok a, s1) => (Except.ok a, s1)
    | (Except.error e, _) => (Except.error e, s)

/-- Whether a param key is an underscore-prefixed control key
(`_limit`, `_start`, `_sort`, …), handled by the filter translation rather
than matched as an attribute. -/
def underscorePrefixed (s : String) : Bool :=
  match s.data with
  | c :: _ => c == '_'
  | [] => false

/-- Whether an entity row matches REST-style filter params, modelling the
external `convertRestQueryParams` / `buildQuery` collaborators as a
conjunction of equality predicates (underscore-prefixed control keys are
handled separately; the primary-key param matches the row id). -/
def rowMatchesParams (m : Model) (row : EntityRow)
    (params : List (String × JVal)) : Bool :=
  params.all (fun p =>
    if underscorePrefixed p.1 then true
    else if p.1 == m.primaryKey then idMatches p.2 row.id
    else lookupVal row.attrs p.1 == p.2)

/-- `find(params)` restricted to what the engine itself contributes: the
matching entity rows, truncated by `_limit` when one is imposed. -/
def findRows (m : Model) (params : List (String × JVal))
    (limit : Option Nat) (s : DBState) : List EntityRow :=
  let matching := s.entities.filter (fun r => rowMatchesParams m r params)
  match limit with
  | some n => matching.take n
  | none => matching

/-- `entry.save(data, { method: 'update', patch: true })`: patch only the
supplied columns of the entity row. -/
def patchEntity (eid : Nat) (data : List (String × JVal)) (s : DBState) :
    DBState :=
  { s with
    entities := s.entities.map (fun r =>
      if r.id == eid then { r with attrs := patchFields r.attrs data "id" } else r) }

/-- `create(values, { transacting })`: split the payload, insert the entity
row with the scalar attributes, run `createComponents`, then persist the
relations — all through `wrapTransaction`. Returns the new entity id. -/
def create (reg : Registry) (m : Model) (values : List (String × JVal))
    (transacting : Bool) : DBRun Nat := fun s =>
  let relations := pickRelations m values
  let data := selectAttributes m values
  let runCreate : DBRun Nat := fun s0 =>
    let eid := s0.nextId
    let s1 := { s0 with
      nextId := s0.nextId + 1
      entities := s0.entities ++ [⟨eid, data⟩] }
    match createComponents reg m eid values s1 with
    | (Except.error e, s2) => (Except.error e, s2)
    | (Except.ok _, s2) =>
      (Except.ok eid, { s2 with relLog := s2.relLog ++ [⟨eid, relations⟩] })
  wrapTransaction m transacting runCreate s

/-- `update(params, values, { transacting })`: locate the target entity
(404 when none), split the payload, patch the row only when scalar data was
supplied, always run `updateComponents`, persist relations only when
relation keys were supplied (else the current state is re-fetched, a pure
read) — the write phase through `wrapTransaction`. -/
def update (reg : Registry) (m : Model) (params values : List (String × JVal))
    (transacting : Bool) : DBRun Unit := fun s =>
  match s.entities.find? (fun r => rowMatchesParams m r params) with
  | none => (Except.error ⟨"entry.notFound", 404⟩, s)
  | some entry =>
    let relations := pickRelations m values
    let data := selectAttributes m values
    let runUpdate : DBRun Unit := fun s0 =>
      let s1 := if data.length > 0 then patchEntity entry.id data s0 else s0
      match updateComponents reg m entry.id values s1 with
      | (Except.error e, s2) => (Except.error e, s2)
      | (Except.ok _, s2) =>
        if relations.length > 0 then
          (Except.ok (), { s2 with relLog := s2.relLog ++ [⟨entry.id, relations⟩] })
        else (Except.ok (), s2)
    wrapTransaction m transacting runUpdate s

/-- The relation-reset values built by `deleteOne`: singular natures are set
to null, plural natures to an empty collection, anything else is skipped. -/
def deleteRelationValues (m : Model) : List (String × JVal) :=
  m.associations.foldl (fun acc a =>
    if ["oneWay", "oneToOne", "manyToOne", "oneToManyMorph"].contains a.nature then
      acc ++ [(a.aliasName, vnull)]
    else if ["manyWay", "oneToMany", "manyToMany", "manyToManyMorph"].contains a.nature then
      acc ++ [(a.aliasName, varr [])]
    else acc) []

/-- `deleteOne(id, { transacting })`: 404 when no row has the id; null/empty
every relation alias through the relation collaborator (outside the deletion
transaction); then, through `wrapTransaction`, `deleteComponents` and
destroy the entity row (`require: false`). Returns the deleted entity. -/
def deleteOne (reg : Registry) (m : Model) (id : Nat) (transacting : Bool) :
    DBRun EntityRow := fun s =>
  match s.entities.find? (fun r => r.id == id) with
  | none => (Except.error ⟨"entry.notFound", 404⟩, s)
  | some entry =>
    let s1 := { s with relLog := s.relLog ++ [⟨id, deleteRelationValues m⟩] }
    let runDelete : DBRun EntityRow := fun s0 =>
      match deleteComponents reg m entry.id s0 with
      | (Except.error e, s2) => (Except.error e, s2)
      | (Except.ok _, s2) =>
        (Except.ok entry,
         { s2 with entities := s2.entities.filter (fun r => !(r.id == entry.id)) })
    wrapTransaction m transacting runDelete s1

/-- The result shape of the public `delete`: `null`, a single entity, or an
array of entities. -/
inductive DeleteResult where
  | nullResult : DeleteResult
  | one : EntityRow → DeleteResult
  | many : List EntityRow → DeleteResult
deriving Repr, BEq

/-- The `Promise.all(entries.map(entry => deleteOne(entry.id)))` loop of
`deleteMany`, modelled sequentially. -/
def deleteEach (reg : Registry) (m : Model) (transacting : Bool) :
    List EntityRow → DBRun (List EntityRow)
  | [] => fun s => (Except.ok [], s)
  | e :: rest => fun s =>
    match deleteOne reg m e.id transacting s with
    | (Except.error err, s1) => (Except.error err, s1)
    | (Except.ok deleted, s1) =>
      match deleteEach reg m transacting rest s1 with
      | (Except.error err, s2) => (Except.error err, s2)
      | (Except.ok ds, s2) => (Except.ok (deleted :: ds), s2)

/-- `deleteMany(params, { transacting })` — the public `delete`: when
`params[model.primaryKey]` is truthy, find at most one match and delete it,
returning `null` when there is none; otherwise delete every match
independently. -/
def deleteMany (reg : Registry) (m : Model) (params : List (String × JVal))
    (transacting : Bool) : DBRun DeleteResult := fun s =>
  if (lookupVal params m.primaryKey).truthy then
    match findRows m params (some 1) s with
    | entry :: _ =>
      match deleteOne reg m entry.id transacting s with
      | (Except.error e, s1) => (Except.error e, s1)
      | (Except.ok deleted, s1) => (Except.ok (DeleteResult.one deleted), s1)
    | [] => (Except.ok DeleteResult.nullResult, s)
  else
    match deleteEach reg m transacting (findRows m params none s) s with
    | (Except.error e, s1) => (Except.error e, s1)
    | (Except.ok ds, s1) => (Except.ok (DeleteResult.many ds), s1)

/-- A search predicate contributed by `buildSearchQuery`: an exact numeric
match, an exact boolean match (bound as 1/0), or a dialect-specific raw
full-text clause over the text columns. -/
inductive SearchPred where
  | numEq : String → Int → SearchPred
  | boolEq : String → Bool → SearchPred
  | fullTextMySql : List String → String → SearchPred
  | fullTextPg : List String → String → SearchPred
deriving Repr, DecidableEq

/-- Leading/trailing-blank stripping of a query string (the whitespace
handling inside JavaScript number conversion). -/
def trimChars (cs : List Char) : List Char :=
  ((cs.dropWhile (fun c => c == ' ')).reverse.dropWhile (fun c => c == ' ')).reverse

/-- The numeric value of a list of decimal digits. -/
def natOfDigits (cs : List Char) : Nat :=
  cs.foldl (fun a c => 10 * a + (c.toNat - 48)) 0

/-- `_.toNumber` on a query string, `none` standing for `NaN`: a blank
string converts to 0, otherwise the integer value when the string is an
integer literal (non-integer numeric literals are not needed by the claims
and are treated as `NaN`). -/
def jsToNumber (s : String) : Option Int :=
  match trimChars s.data with
  | [] => some 0
  | '-' :: rest =>
    if rest ≠ [] && rest.all (fun c => c.isDigit) then
      some (-(natOfDigits rest : Int))
    else none
  | cs =>
    if cs.all (fun c => c.isDigit) then some ((natOfDigits cs : Int)) else none

/-- The non-primary-key, non-association attribute names of the given
scalar types, as selected by `buildSearchQuery`. -/
def searchAttrsOfTypes (m : Model) (types : List String) : List String :=
  (m.attributes.filter (fun p =>
    p.1 != m.primaryKey && !(assocKeys m).contains p.1 &&
    types.contains p.2.type)).map Prod.fst

/-- `buildSearchQuery(qb, model, params)`: `orWhere` an exact match on every
numeric attribute when the query converts to a number, `orWhere` an exact
match on every boolean attribute when the query is `'true'`/`'false'`, and
`orWhereRaw` one dialect-specific full-text clause over the string/text
attributes for `mysql` and `pg` (no other dialect adds one). -/
def buildSearchQuery (m : Model) (q : String) : List SearchPred :=
  let searchText := searchAttrsOfTypes m ["string", "text"]
  let searchInt := searchAttrsOfTypes m ["integer", "decimal", "float"]
  let searchBool := searchAttrsOfTypes m ["boolean"]
  let numPreds := match jsToNumber q with
    | some n => searchInt.map (fun a => SearchPred.numEq a n)
    | none => []
  let boolPreds :=
    if q == "true" || q == "false" then
      searchBool.map (fun a => SearchPred.boolEq a (q == "true"))
    else []
  let textPreds := match m.client with
    | "mysql" => [SearchPred.fullTextMySql searchText q]
    | "pg" => [SearchPred.fullTextPg searchText q]
    | _ => []
  numPreds ++ boolPreds ++ textPreds

/-- Stored-column equality against a bound numeric value, with the
database's boolean/number coercion (booleans are stored as 1/0). -/
def storedNumEq (stored : JVal) (n : Int) : Bool :=
  match stored with
  | vnum k => k == n
  | vbool b => (if b then (1 : Int) else 0) == n
  | _ => false

/-- Evaluation of one search predicate against an entity row; the raw
full-text clauses are evaluated by dialect-specific oracles, since their
semantics lives in the database engine. -/
def evalSearchPred (ftMySql ftPg : List String → String → EntityRow → Bool)
    (row : EntityRow) : SearchPred → Bool
  | SearchPred.numEq a n => storedNumEq (lookupVal row.attrs a) n
  | SearchPred.boolEq a b => storedNumEq (lookupVal row.attrs a) (if b then 1 else 0)
  | SearchPred.fullTextMySql attrs q => ftMySql attrs q row
  | SearchPred.fullTextPg attrs q => ftPg attrs q row

/-- A row satisfies the search query when ANY contributed predicate holds:
`orWhere`/`orWhereRaw` combine by logical OR. -/
def searchMatches (ftMySql ftPg : List String → String → EntityRow → Bool)
    (m : Model) (q : String) (row : EntityRow) : Bool :=
  (buildSearchQuery m q).any (evalSearchPred ftMySql ftPg row)

/-- `search(params)` restricted to what the engine contributes: the entity
rows matching the OR of the built predicates (sort/offset/limit come from
the external filter-translation collaborator). -/
def search (ftMySql ftPg : List String → String → EntityRow → Bool)
    (m : Model) (q : String) (s : DBState) : List EntityRow :=
  s.entities.filter (fun r => searchMatches ftMySql ftPg m q r)

/-! ## Fixtures -/

/-- A component model used by the concrete fixtures. -/
def secModel : ComponentModel := ⟨"default.sec", "components_secs", "id"⟩

/-- A registry holding the fixture component model. -/
def fixtureReg : Registry := ⟨[secModel]⟩

/-- An empty registry (forces a registry miss). -/
def emptyReg : Registry := ⟨[]⟩

/-- A fixture model: scalar `title`, required repeatable component
`sections`, on a non-mssql connection. -/
def articleModel : Model :=
  { attributes := [("title", { type := "string" }),
                   ("sections", { type := "component", component := "default.sec",
                                  required := true, repeatable := true })]
    associations := []
    allAttributes := ["title"]
    timestamps := []
    client := "sqlite3" }

/-- The empty database (id sequence starting at 1). -/
def emptyDB : DBState := ⟨[], [], [], [], 1⟩

/-- A database holding one article and nothing else. -/
def oneArticleDB : DBState := ⟨[⟨1, [("title", vstr "A")]⟩], [], [], [], 2⟩

/-! ## Transaction scope (helper lemmas) -/

theorem wrapTransaction_reuse {α : Type} (m : Model) (fn : DBRun α)
    (s : DBState) : wrapTransaction m true fn s = fn s := by
  simp [wrapTransaction]

theorem wrapTransaction_mssql {α : Type} (m : Model) (fn : DBRun α)
    (s : DBState) (h : m.client = "mssql") (t : Bool) :
    wrapTransaction m t fn s = fn s := by
  simp [wrapTransaction, h]

theorem wrapTransaction_rollback {α : Type} (m : Model) (fn : DBRun α)
    (s s2 : DBState) (e : Err) (h : m.client ≠ "mssql")
    (heq : wrapTransaction m false fn s = (Except.error e, s2)) : s2 = s := by
  unfold wrapTransaction at heq
  rw [show (m.client == "mssql") = false from beq_eq_false_iff_ne.mpr h] at heq
  simp only [Bool.false_eq_true, if_false] at heq
  cases hfn : fn s with
  | mk r s1 =>
    rw [hfn] at heq
    cases r with
    | ok a => exact absurd heq (by simp)
    | error e2 => injection heq with h1 h2; exact h2.symm

/-- C1: every multi-step write — `create`; `update`'s scalar-patch plus
component phase; single-entity delete's component-deletion plus row-removal
phase — runs through `wrapTransaction`, so on a non-mssql dialect with no
open handle, any failure inside the scope rolls back all writes within it
(the resulting state is the state at transaction start: for `create` and
`update` the initial state, for `deleteOne` the initial entity, component
and join tables, the pre-transaction relation unlink excepted); an
already-open transaction handle is reused instead of opening a new one, and
the mssql dialect bypasses opening a new transaction. -/
theorem multiStepWritesTransactional (reg : Registry) (m : Model)
    (values params : List (String × JVal)) (id : Nat) (s : DBState)
    {α : Type} (fn : DBRun α) :
    (wrapTransaction m true fn s = fn s) ∧
    (m.client = "mssql" → ∀ t : Bool, wrapTransaction m t fn s = fn s) ∧
    (m.client ≠ "mssql" → ∀ e s2,
      create reg m values false s = (Except.error e, s2) → s2 = s) ∧
    (m.client ≠ "mssql" → ∀ e s2,
      update reg m params values false s = (Except.error e, s2) → s2 = s) ∧
    (m.client ≠ "mssql" → ∀ e s2,
      deleteOne reg m id false s = (Except.error e, s2) →
        s2.entities = s.entities ∧ s2.compRows = s.compRows ∧
        s2.joins = s.joins) := by
  refine ⟨wrapTransaction_reuse m fn s, fun h t => wrapTransaction_mssql m fn s h t,
    ?_, ?_, ?_⟩
  · intro h e s2 heq
    unfold create at heq
    exact wrapTransaction_rollback m _ s s2 e h heq
  · intro h e s2 heq
    unfold update at heq
    cases hf : s.entities.find? (fun r => rowMatchesParams m r params) with
    | none => rw [hf] at heq; injection heq with h1 h2; exact h2.symm
    | some entry =>
      rw [hf] at heq
      exact wrapTransaction_rollback m _ s s2 e h heq
  · intro h e s2 heq
    unfold deleteOne at heq
    cases hf : s.entities.find? (fun r => r.id == id) with
    | none =>
      rw [hf] at heq; injection heq with h1 h2
      exact ⟨congrArg DBState.entities h2.symm, congrArg DBState.compRows h2.symm,
        congrArg DBState.joins h2.symm⟩
    | some entry =>
      rw [hf] at heq
      have h3 := wrapTransaction_rollback m _ _ s2 e h heq
      rw [h3]
      exact ⟨rfl, rfl, rfl⟩

/-- Witness for C1 at concrete inputs: a failing create (missing required
component) and a failing update (malformed component payload) roll back to
the initial state; a failing delete preserves the entity table; an open
handle and the mssql dialect run the work directly. -/
theorem multiStepWritesTransactional_witness :
    (create fixtureReg articleModel [] false emptyDB).2 = emptyDB ∧
    (update fixtureReg articleModel [("id", vnum 1)] [("sections", vnum 5)]
      false oneArticleDB).2 = oneArticleDB ∧
    (deleteOne emptyReg articleModel 1 false oneArticleDB).2.entities =
      oneArticleDB.entities ∧
    wrapTransaction articleModel true (fun s => (Except.ok 0, s)) emptyDB =
      (Except.ok 0, emptyDB) ∧
    wrapTransaction { articleModel with client := "mssql" } false
      (fun s => (Except.ok 0, s)) emptyDB = (Except.ok 0, emptyDB) := by
  refine ⟨?_, ?_, ?_, ?_, ?_⟩
  · exact (multiStepWritesTransactional fixtureReg articleModel [] [] 0 emptyDB
      (fun s => (Except.ok (0 : Nat), s))).2.2.1 (by decide) _ _ rfl
  · exact (multiStepWritesTransactional fixtureReg articleModel
      [("sections", vnum 5)] [("id", vnum 1)] 0 oneArticleDB
      (fun s => (Except.ok (0 : Nat), s))).2.2.2.1 (by decide)
      ⟨"Component sections is repetable. Expected an array", 400⟩
      (update fixtureReg articleModel [("id", vnum 1)] [("sections", vnum 5)]
        false oneArticleDB).2 (by rfl)
  · exact ((multiStepWritesTransactional emptyReg articleModel [] [] 1 oneArticleDB
      (fun s => (Except.ok (0 : Nat), s))).2.2.2.2 (by decide) _ _ rfl).1
  · exact (multiStepWritesTransactional fixtureReg articleModel [] [] 0 emptyDB
      (fun s => (Except.ok 0, s))).1
  · exact (multiStepWritesTransactional fixtureReg
      { articleModel with client := "mssql" } [] [] 0 emptyDB
      (fun s => (Except.ok 0, s))).2.1 rfl false

/-! ## Not-found behaviour -/

/-- C8: when the filter matches no entity, `update` raises `entry.notFound`
with status 404 and performs no writes, and so does single-entity delete
(`deleteOne`) when no row carries the requested id. -/
theorem updateDeleteNotFound (reg : Registry) (m : Model)
    (params values : List (String × JVal)) (id : Nat) (t : Bool) (s : DBState)
    (hu : ∀ r ∈ s.entities, rowMatchesParams m r params = false)
    (hd : ∀ r ∈ s.entities, r.id ≠ id) :
    update reg m params values t s = (Except.error ⟨"entry.notFound", 404⟩, s) ∧
    deleteOne reg m id t s = (Except.error ⟨"entry.notFound", 404⟩, s) := by
  constructor
  · have hf : s.entities.find? (fun r => rowMatchesParams m r params) = none := by
      rw [List.find?_eq_none]
      intro r hr
      simp [hu r hr]
    unfold update
    rw [hf]
  · have hf : s.entities.find? (fun r => r.id == id) = none := by
      rw [List.find?_eq_none]
      intro r hr
      simp [hd r hr]
    unfold deleteOne
    rw [hf]

/-- Witness for C8: on a database holding only entity 1, an update filtered
on id 2 and a delete of id 2 both fail with status 404, leaving the state
unchanged. -/
theorem updateDeleteNotFound_witness :
    update fixtureReg articleModel [("id", vnum 2)] [("title", vstr "B")]
      false oneArticleDB =
      (Except.error ⟨"entry.notFound", 404⟩, oneArticleDB) ∧
    deleteOne fixtureReg articleModel 2 false oneArticleDB =
      (Except.error ⟨"entry.notFound", 404⟩, oneArticleDB) :=
  updateDeleteNotFound fixtureReg articleModel [("id", vnum 2)]
    [("title", vstr "B")] 2 false oneArticleDB
    (by
      intro r hr
      rw [show oneArticleDB.entities = [⟨1, [("title", vstr "A")]⟩] from rfl,
        List.mem_singleton] at hr
      subst hr
      decide)
    (by
      intro r hr
      rw [show oneArticleDB.entities = [⟨1, [("title", vstr "A")]⟩] from rfl,
        List.mem_singleton] at hr
      subst hr
      decide)

/-! ## Public delete with a primary-key filter -/

/-- Counterexample to C10 as stated: the source tests
`params[model.primaryKey]` for JavaScript truthiness, not containment, so a
filter containing the primary key with the falsy value `0` (which matches no
entity) takes the multi-delete path and returns an empty array — not
`null`. -/
theorem deleteManyPkFalsy_counterexample :
    deleteMany fixtureReg articleModel [("id", vnum 0)] false emptyDB =
      (Except.ok (DeleteResult.many []), emptyDB) ∧
    DeleteResult.many [] ≠ DeleteResult.nullResult :=
  ⟨rfl, fun h => nomatch h⟩

/-- C10 (amended): when the public delete is called with a filter whose
primary-key value is truthy and no entity matches it, it returns `null`
and raises no 404; direct single-entity deletion is the path that raises
`entry.notFound`. -/
theorem deleteManyPkNoMatch (reg : Registry) (m : Model)
    (params : List (String × JVal)) (t : Bool) (s : DBState)
    (htruthy : (lookupVal params m.primaryKey).truthy = true)
    (hnone : ∀ r ∈ s.entities, rowMatchesParams m r params = false) :
    deleteMany reg m params t s = (Except.ok DeleteResult.nullResult, s) ∧
    (∀ id, (∀ r ∈ s.entities, r.id ≠ id) →
      deleteOne reg m id t s = (Except.error ⟨"entry.notFound", 404⟩, s)) := by
  have hfil : s.entities.filter (fun r => rowMatchesParams m r params) = [] := by
    rw [List.filter_eq_nil_iff]
    intro r hr
    simp [hnone r hr]
  constructor
  · unfold deleteMany findRows
    rw [htruthy, hfil]
    rfl
  · intro id hid
    have hf : s.entities.find? (fun r => r.id == id) = none := by
      rw [List.find?_eq_none]
      intro r hr
      simp [hid r hr]
    unfold deleteOne
    rw [hf]

/-- Witness for the amended C10: deleting by the truthy unmatched id 5 on a
database holding only entity 1 returns `null` without error; a direct
single-entity delete of id 5 raises 404. -/
theorem deleteManyPkNoMatch_witness :
    deleteMany fixtureReg articleModel [("id", vnum 5)] false oneArticleDB =
      (Except.ok DeleteResult.nullResult, oneArticleDB) ∧
    deleteOne fixtureReg articleModel 5 false oneArticleDB =
      (Except.error ⟨"entry.notFound", 404⟩, oneArticleDB) := by
  have h := deleteManyPkNoMatch fixtureReg articleModel [("id", vnum 5)] false
    oneArticleDB rfl
    (by
      intro r hr
      rw [show oneArticleDB.entities = [⟨1, [("title", vstr "A")]⟩] from rfl,
        List.mem_singleton] at hr
      subst hr
      decide)
  exact ⟨h.1, h.2 5
    (by
      intro r hr
      rw [show oneArticleDB.entities = [⟨1, [("title", vstr "A")]⟩] from rfl,
        List.mem_singleton] at hr
      subst hr
      decide)⟩

/-! ## Repeatable-component validation bounds -/

/-- Helper: the exact acceptance condition of `validateRepeatableInput` on
an array value. -/
theorem validateRepeatable_ok_iff (items : List JVal) (key : String)
    (attr : AttrDef) :
    validateRepeatableInput (varr items) key attr = Except.ok () ↔
      ((∀ v ∈ items, v.isPlainObject = true) ∧
       ((attr.required = true ∨ items ≠ []) → natTruthy attr.min = true →
         natVal attr.min ≤ items.length) ∧
       (natTruthy attr.max = true → items.length ≤ natVal attr.max)) := by
  simp only [validateRepeatableInput]
  split_ifs with h1 h2 h3
  · simp only [Bool.and_eq_true, Bool.or_eq_true, Bool.not_eq_true',
      decide_eq_true_eq] at h2
    constructor
    · intro h; simp at h
    · rintro ⟨-, hmin, -⟩
      have hprem : attr.required = true ∨ items ≠ [] := by
        rcases h2.1.1 with h | h
        · exact Or.inl h
        · exact Or.inr (List.length_pos.mp h.2)
      have hle := hmin hprem h2.1.2
      have hlt := h2.2
      omega
  · simp only [Bool.and_eq_true, decide_eq_true_eq] at h3
    constructor
    · intro h; simp at h
    · rintro ⟨-, -, hmax⟩
      have hle := hmax h3.1
      have hgt := h3.2
      omega
  · simp only [Bool.and_eq_true, Bool.or_eq_true, Bool.not_eq_true',
      decide_eq_true_eq, not_and, not_lt] at h2 h3
    constructor
    · rintro -
      refine ⟨fun v hv => List.all_eq_true.mp h1 v hv, ?_, h3⟩
      intro hprem hmin
      refine h2 ⟨?_, hmin⟩
      rcases hprem with h | h
      · exact Or.inl h
      · cases hr : attr.required with
        | true => exact Or.inl rfl
        | false => exact Or.inr ⟨rfl, List.length_pos.mpr h⟩
    · intro _; rfl
  · constructor
    · intro h; simp at h
    · rintro ⟨hobj, -, -⟩
      exact absurd (List.all_eq_true.mpr fun v hv => hobj v hv) h1

/-- Counterexample to C4 as stated: with `max` configured as `0`, an array
of 1 item exceeds the configured max, yet validation succeeds — the source
guards the max check with JavaScript truthiness (`max && …`), so a
configured `0` is treated as unconfigured rather than enforced. -/
theorem repeatableMaxZero_counterexample :
    validateRepeatableInput (varr [vobj []]) "sections"
      { type := "component", required := true, max := some 0 } =
      Except.ok () ∧
    ([vobj []].length > natVal (some 0) ∧ natVal (some 0) = 0) :=
  ⟨rfl, by decide, rfl⟩

/-- C4 (amended): a repeatable-component value must be an array of plain
non-array non-null objects; with a truthy (nonzero) `min` configured, length
≥ min is enforced exactly when the field is required or the array is
non-empty; with a truthy (nonzero) `max` configured, length ≤ max is
enforced unconditionally; every violation is an error with status 400. -/
theorem repeatableValidationBounds (value : JVal) (key : String)
    (attr : AttrDef) :
    (validateRepeatableInput value key attr = Except.ok () ↔
      ∃ items, value = varr items ∧ (∀ v ∈ items, v.isPlainObject = true) ∧
        ((attr.required = true ∨ items ≠ []) → natTruthy attr.min = true →
          natVal attr.min ≤ items.length) ∧
        (natTruthy attr.max = true → items.length ≤ natVal attr.max)) ∧
    (∀ e, validateRepeatableInput value key attr = Except.error e →
      e.status = 400) := by
  constructor
  · cases value with
    | varr items =>
      rw [validateRepeatable_ok_iff]
      constructor
      · rintro ⟨h1, h2, h3⟩
        exact ⟨items, rfl, h1, h2, h3⟩
      · rintro ⟨items2, heq, h1, h2, h3⟩
        cases heq
        exact ⟨h1, h2, h3⟩
    | vnull => simp [validateRepeatableInput]
    | vbool b => simp [validateRepeatableInput]
    | vnum n => simp [validateRepeatableInput]
    | vstr st => simp [validateRepeatableInput]
    | vobj fields => simp [validateRepeatableInput]
  · intro e he
    cases value with
    | varr items =>
      simp only [validateRepeatableInput] at he
      split_ifs at he <;> (injection he with h; rw [← h])
    | vnull =>
      simp only [validateRepeatableInput] at he
      injection he with h; rw [← h]
    | vbool b =>
      simp only [validateRepeatableInput] at he
      injection he with h; rw [← h]
    | vnum n =>
      simp only [validateRepeatableInput] at he
      injection he with h; rw [← h]
    | vstr st =>
      simp only [validateRepeatableInput] at he
      injection he with h; rw [← h]
    | vobj fields =>
      simp only [validateRepeatableInput] at he
      injection he with h; rw [← h]

/-- Witness for the amended C4: a required field with `min=1, max=3` accepts
one plain object; a non-array value yields a status-400 error. -/
theorem repeatableValidationBounds_witness :
    validateRepeatableInput (varr [vobj []]) "s"
      { type := "component", required := true, min := some 1, max := some 3 } =
      Except.ok () ∧
    (⟨"Component s is repetable. Expected an array", 400⟩ : Err).status = 400 := by
  constructor
  · exact (repeatableValidationBounds (varr [vobj []]) "s"
      { type := "component", required := true, min := some 1, max := some 3 }).1.mpr
      ⟨[vobj []], rfl,
        by intro v hv; rw [List.mem_singleton] at hv; subst hv; rfl,
        fun _ _ => by decide, fun _ => by decide⟩
  · exact (repeatableValidationBounds vnull "s"
      { type := "component", required := true, min := some 1, max := some 3 }).2
      ⟨"Component s is repetable. Expected an array", 400⟩ rfl

/-! ## Dynamic-zone validation -/

theorem strEq_iff (v : JVal) (c : String) :
    v.strEq c = true ↔ v = vstr c := by
  cases v <;> simp [JVal.strEq]

theorem dynamiczoneItemCheck_error_status (key : String)
    (components : List String) (v : JVal) (e : Err)
    (h : dynamiczoneItemCheck key components v = Except.error e) :
    e.status = 400 := by
  unfold dynamiczoneItemCheck at h
  split_ifs at h <;> (injection h with h2; rw [← h2])

theorem validateDynamiczone_error_status (value : JVal) (key : String)
    (attr : AttrDef) (e : Err)
    (h : validateDynamiczoneInput value key attr = Except.error e) :
    e.status = 400 := by
  cases value with
  | varr items =>
    simp only [validateDynamiczoneInput] at h
    cases hfs : items.findSome? (fun v =>
        match dynamiczoneItemCheck key attr.components v with
        | Except.error e => some e
        | Except.ok _ => none) with
    | some e2 =>
      rw [hfs] at h
      injection h with h2
      subst h2
      obtain ⟨v, hv, hfv⟩ := List.exists_of_findSome?_eq_some hfs
      revert hfv
      cases hc : dynamiczoneItemCheck key attr.components v with
      | error e3 =>
        intro hfv
        injection hfv with h3
        subst h3
        exact dynamiczoneItemCheck_error_status key attr.components v _ hc
      | ok u => intro hfv; cases hfv
    | none =>
      rw [hfs] at h
      split_ifs at h <;> (injection h with h2; rw [← h2])
  | vnull => injection h with h2; rw [← h2]
  | vbool b => injection h with h2; rw [← h2]
  | vnum n => injection h with h2; rw [← h2]
  | vstr st => injection h with h2; rw [← h2]
  | vobj fields => injection h with h2; rw [← h2]

/-- Helper: a dynamic-zone item passing the per-item check is a plain object
carrying an allowed `__component` discriminant. -/
theorem dynamiczoneItemCheck_ok (key : String) (components : List String)
    (v : JVal) (h : dynamiczoneItemCheck key components v = Except.ok ()) :
    v.isPlainObject = true ∧ v.hasField "__component" = true ∧
    ∃ c ∈ components, v.getField "__component" = vstr c := by
  unfold dynamiczoneItemCheck at h
  split_ifs at h with h1 h2 h3
  refine ⟨?_, ?_, ?_⟩
  · cases hp : v.isPlainObject with
    | true => rfl
    | false => exact absurd (by rw [hp]; rfl) h1
  · cases hp : v.hasField "__component" with
    | true => rfl
    | false => exact absurd (by rw [hp]; rfl) h2
  · rcases List.all_eq_false.mp (Bool.eq_false_iff.mpr h3) with ⟨c, hc, hnc⟩
    have hce : (v.getField "__component").strEq c = true := by
      cases hb : (v.getField "__component").strEq c with
      | true => rfl
      | false => exact absurd (by rw [hb]; rfl) hnc
    exact ⟨c, hc, (strEq_iff _ _).mp hce⟩

/-- C5: a dynamic-zone payload accepted by validation is an array of plain
objects each carrying a `__component` among the allowed identifiers; an item
lacking `__component`, or carrying a disallowed one, always produces a
status-400 error regardless of the item's other content; and inside both
`updateComponents` and `createComponents` the validation error for a present
dynamiczone field is raised with the state unchanged — before any
persistence for that field. -/
theorem dynamiczoneDiscriminantValidation (value : JVal) (key : String)
    (attr : AttrDef) (reg : Registry) (eid : Nat)
    (values : List (String × JVal)) (s : DBState) :
    (validateDynamiczoneInput value key attr = Except.ok () →
      ∃ items, value = varr items ∧ ∀ v ∈ items, v.isPlainObject = true ∧
        v.hasField "__component" = true ∧
        ∃ c ∈ attr.components, v.getField "__component" = vstr c) ∧
    (∀ items v, value = varr items → v ∈ items →
      (v.hasField "__component" = false ∨
        ∀ c ∈ attr.components, v.getField "__component" ≠ vstr c) →
      ∃ e, validateDynamiczoneInput value key attr = Except.error e ∧
        e.status = 400) ∧
    (∀ e, attr.type = "dynamiczone" → hasKey values key = true →
      validateDynamiczoneInput (lookupVal values key) key attr =
        Except.error e →
      updateComponentsKey reg eid values key attr s = (Except.error e, s) ∧
      createComponentsKey reg eid values key attr s = (Except.error e, s)) := by
  refine ⟨?_, ?_, ?_⟩
  · intro hok
    cases value with
    | varr items =>
      refine ⟨items, rfl, ?_⟩
      intro v hv
      simp only [validateDynamiczoneInput] at hok
      cases hfs : items.findSome? (fun v =>
          match dynamiczoneItemCheck key attr.components v with
          | Except.error e => some e
          | Except.ok _ => none) with
      | some e2 => rw [hfs] at hok; cases hok
      | none =>
        have hfv := List.findSome?_eq_none_iff.mp hfs v hv
        revert hfv
        cases hc : dynamiczoneItemCheck key attr.components v with
        | error e3 => intro hfv; cases hfv
        | ok u => intro hfv; exact dynamiczoneItemCheck_ok key attr.components v hc
    | vnull => cases hok
    | vbool b => cases hok
    | vnum n => cases hok
    | vstr st => cases hok
    | vobj fields => cases hok
  · rintro items v rfl hv hbad
    have hc : ∃ e0, dynamiczoneItemCheck key attr.components v =
        Except.error e0 := by
      cases hc2 : dynamiczoneItemCheck key attr.components v with
      | error e0 => exact ⟨e0, rfl⟩
      | ok u =>
        obtain ⟨-, hhas, c, hcmem, hcval⟩ :=
          dynamiczoneItemCheck_ok key attr.components v hc2
        rcases hbad with hb | hb
        · rw [hhas] at hb; cases hb
        · exact absurd hcval (hb c hcmem)
    obtain ⟨e0, he0⟩ := hc
    have hne : items.findSome? (fun v =>
        match dynamiczoneItemCheck key attr.components v with
        | Except.error e => some e
        | Except.ok _ => none) ≠ none := by
      intro hnone
      have := List.findSome?_eq_none_iff.mp hnone v hv
      rw [he0] at this
      cases this
    obtain ⟨e1, he1⟩ := Option.ne_none_iff_exists'.mp hne
    refine ⟨e1, ?_, ?_⟩
    · simp only [validateDynamiczoneInput]
      rw [he1]
    · obtain ⟨v2, hv2, hfv2⟩ := List.exists_of_findSome?_eq_some he1
      revert hfv2
      cases hc3 : dynamiczoneItemCheck key attr.components v2 with
      | error e3 =>
        intro hfv2
        injection hfv2 with h4
        subst h4
        exact dynamiczoneItemCheck_error_status key attr.components v2 _ hc3
      | ok u => intro hfv2; cases hfv2
  · intro e htype hkey hval
    constructor
    · unfold updateComponentsKey
      rw [htype, hkey]
      simp only [Bool.not_true, Bool.false_eq_true, if_false, hval]
    · unfold createComponentsKey
      rw [htype, hkey]
      simp only [Bool.not_true, Bool.and_false, Bool.false_eq_true, if_false,
        hval]

/-- A dynamiczone attribute fixture allowing only `default.sec`. -/
def dzFixtureAttr : AttrDef := { type := "dynamiczone", components := ["default.sec"] }

/-- Witness for C5: an item without `__component` fails with status 400;
the failure inside `updateComponentsKey` leaves the state unchanged; a
well-formed payload passes with the discriminant among the allowed ids. -/
theorem dynamiczoneDiscriminantValidation_witness :
    (∃ e, validateDynamiczoneInput (varr [vobj [("x", vnum 1)]]) "zone"
        dzFixtureAttr = Except.error e ∧ e.status = 400) ∧
    (updateComponentsKey fixtureReg 1 [("zone", varr [vobj [("x", vnum 1)]])]
        "zone" dzFixtureAttr emptyDB =
      (Except.error ⟨"Dynamiczone zone has invalid items. Expected each items to have a valid __component key", 400⟩, emptyDB)) ∧
    (∃ items, (varr [vobj [("__component", vstr "default.sec")]] : JVal) =
        varr items ∧ ∀ v ∈ items, v.isPlainObject = true ∧
        v.hasField "__component" = true ∧
        ∃ c ∈ dzFixtureAttr.components, v.getField "__component" = vstr c) := by
  refine ⟨?_, ?_, ?_⟩
  · exact (dynamiczoneDiscriminantValidation (varr [vobj [("x", vnum 1)]])
      "zone" dzFixtureAttr fixtureReg 1 [] emptyDB).2.1 [vobj [("x", vnum 1)]]
      (vobj [("x", vnum 1)]) rfl (List.mem_singleton.mpr rfl) (Or.inl rfl)
  · exact ((dynamiczoneDiscriminantValidation vnull "zone" dzFixtureAttr
      fixtureReg 1 [("zone", varr [vobj [("x", vnum 1)]])] emptyDB).2.2
      ⟨"Dynamiczone zone has invalid items. Expected each items to have a valid __component key", 400⟩
      rfl rfl (by rfl)).1
  · exact (dynamiczoneDiscriminantValidation
      (varr [vobj [("__component", vstr "default.sec")]]) "zone" dzFixtureAttr
      fixtureReg 1 [] emptyDB).1 (by rfl)

/-! ## Search semantics -/

theorem string_beq_false_of_ne {a b : String} (h : a ≠ b) : (a == b) = false := by
  cases hq : (a == b) with
  | false => rfl
  | true => exact absurd (beq_iff_eq.mp hq) h

/-- C9: on the dialects that contribute a full-text predicate (`mysql`,
`pg`), a row satisfies the search query exactly when ANY of the
`buildSearchQuery` predicates holds — an exact match on some numeric
attribute when the query converts to a number, OR an exact match on some
boolean attribute when the query is the literal `true`/`false`, OR the
dialect's full-text predicate over all string/text attributes; and `search`
returns exactly the rows satisfying that disjunction. -/
theorem searchOrSemantics (ftM ftP : List String → String → EntityRow → Bool)
    (m : Model) (q : String) (row : EntityRow) (s : DBState)
    (hclient : m.client = "mysql" ∨ m.client = "pg") :
    (searchMatches ftM ftP m q row = true ↔
      ((∃ n, jsToNumber q = some n ∧
        ∃ a ∈ searchAttrsOfTypes m ["integer", "decimal", "float"],
          storedNumEq (lookupVal row.attrs a) n = true) ∨
       ((q = "true" ∨ q = "false") ∧
        ∃ a ∈ searchAttrsOfTypes m ["boolean"],
          storedNumEq (lookupVal row.attrs a)
            (if q = "true" then 1 else 0) = true) ∨
       (m.client = "mysql" ∧
        ftM (searchAttrsOfTypes m ["string", "text"]) q row = true) ∨
       (m.client = "pg" ∧
        ftP (searchAttrsOfTypes m ["string", "text"]) q row = true))) ∧
    (row ∈ search ftM ftP m q s ↔
      row ∈ s.entities ∧ searchMatches ftM ftP m q row = true) := by
  constructor
  · unfold searchMatches buildSearchQuery
    rcases hclient with hc | hc <;> rw [hc] <;> cases hn : jsToNumber q <;>
      by_cases hqt : q = "true" <;> by_cases hqf : q = "false" <;>
      first
      | exact absurd (hqt ▸ hqf) (by decide)
      | ((try subst hqt); (try subst hqf);
         simp_all [List.any_append, List.any_eq_true, List.mem_map,
           evalSearchPred, string_beq_false_of_ne, hn])
  · unfold search
    rw [List.mem_filter]

/-- A fixture model for search: numeric `n`, text `t`, boolean `flag`, on
the mysql dialect. -/
def searchModel : Model :=
  { attributes := [("n", { type := "integer" }), ("t", { type := "string" }),
                   ("flag", { type := "boolean" })]
    associations := []
    allAttributes := ["n", "t", "flag"]
    timestamps := []
    client := "mysql" }

/-- Witness for C9 with query `"42"`: a row whose numeric attribute equals
42 matches even when the full-text predicate is false, and a row with no
matching numeric attribute matches when the full-text predicate holds —
union (OR) semantics. -/
theorem searchOrSemantics_witness :
    searchMatches (fun _ _ _ => false) (fun _ _ _ => false) searchModel "42"
      ⟨1, [("n", vnum 42)]⟩ = true ∧
    searchMatches (fun _ _ _ => true) (fun _ _ _ => true) searchModel "42"
      ⟨2, []⟩ = true := by
  constructor
  · exact (searchOrSemantics (fun _ _ _ => false) (fun _ _ _ => false)
      searchModel "42" ⟨1, [("n", vnum 42)]⟩ emptyDB (Or.inl rfl)).1.mpr
      (Or.inl ⟨42, rfl, "n",
        by
          rw [show searchAttrsOfTypes searchModel ["integer", "decimal", "float"]
            = ["n"] from rfl]
          exact List.mem_singleton.mpr rfl,
        rfl⟩)
  · exact (searchOrSemantics (fun _ _ _ => true) (fun _ _ _ => true)
      searchModel "42" ⟨2, []⟩ emptyDB (Or.inl rfl)).1.mpr
      (Or.inr (Or.inr (Or.inl ⟨rfl, rfl⟩)))

/-! ## Referential integrity of updateComponents -/

/-- C2: if any caller-supplied component id is not among the ids currently
joined to `(entity, field)`, the reconciliation step of `updateComponents`
fails with a 400 "not related to the entity" error and an unchanged state —
before any join-record or component-instance deletion for that field. For
dynamic zones the membership test is keyed on (id, component type) pairs:
the same failure occurs even when every supplied id is present among the
existing ids but some pair's component type does not match. -/
theorem updateReferentialIntegrity (reg : Registry) (eid : Nat) (v : JVal)
    (key : String) (cm : ComponentModel) (items : List JVal) (s : DBState) :
    ((suppliedIds v cm).all
        (fun id => (existingIds s eid key).contains id) = false →
      deleteOldComponents eid v key cm s =
        (Except.error ⟨"Some of the provided components in " ++ key ++
          " are not related to the entity", 400⟩, s)) ∧
    (∀ keeps alls, dzIdsToKeep reg items = Except.ok keeps →
      dzAllIds reg (joinsFor s eid key) = Except.ok alls →
      keeps.all (fun p => dzMem alls p) = false →
      deleteDynamicZoneOldComponents reg eid items key s =
        (Except.error ⟨"Some of the provided components in " ++ key ++
          " are not related to the entity", 400⟩, s)) ∧
    (∀ keeps alls, dzIdsToKeep reg items = Except.ok keeps →
      dzAllIds reg (joinsFor s eid key) = Except.ok alls →
      (∀ p ∈ keeps, p.1 ∈ alls.map Prod.fst) →
      keeps.all (fun p => dzMem alls p) = false →
      deleteDynamicZoneOldComponents reg eid items key s =
        (Except.error ⟨"Some of the provided components in " ++ key ++
          " are not related to the entity", 400⟩, s)) := by
  refine ⟨?_, ?_, ?_⟩
  · intro hfail
    unfold deleteOldComponents
    simp only [hfail, Bool.false_eq_true, if_false]
  · intro keeps alls hkeeps halls hfail
    unfold deleteDynamicZoneOldComponents
    rw [hkeeps, halls]
    simp only [hfail, Bool.false_eq_true, if_false]
  · intro keeps alls hkeeps halls hids hfail
    unfold deleteDynamicZoneOldComponents
    rw [hkeeps, halls]
    simp only [hfail, Bool.false_eq_true, if_false]

/-- A second fixture component model and a registry holding both. -/
def blockModel : ComponentModel := ⟨"default.block", "components_blocks", "id"⟩

def dzReg : Registry := ⟨[secModel, blockModel]⟩

/-- Entity 1 owning one `default.sec` instance (id 7) under field
`sections`. -/
def secJoinDB : DBState :=
  ⟨[⟨1, [("title", vstr "A")]⟩], [⟨"default.sec", 7, vobj [("text", vstr "x")]⟩],
   [⟨1, "components_secs", 7, "sections", 1⟩], [], 8⟩

/-- Entity 1 owning one `default.sec` instance (id 7) under dynamiczone
field `zone`. -/
def dzJoinDB : DBState :=
  ⟨[⟨1, []⟩], [⟨"default.sec", 7, vobj []⟩],
   [⟨1, "components_secs", 7, "zone", 1⟩], [], 8⟩

/-- Witness for C2: supplying id 9 (not joined) fails; supplying id 7 under
the wrong component type (`default.block` instead of `default.sec`) fails
even though the raw id 7 is joined — the dynamic-zone test is keyed on the
(id, type) pair. Both failures leave the state unchanged. -/
theorem updateReferentialIntegrity_witness :
    deleteOldComponents 1 (varr [vobj [("id", vnum 9)]]) "sections" secModel
      secJoinDB =
      (Except.error ⟨"Some of the provided components in sections are not related to the entity", 400⟩,
       secJoinDB) ∧
    deleteDynamicZoneOldComponents dzReg 1
      [vobj [("__component", vstr "default.block"), ("id", vnum 7)]] "zone"
      dzJoinDB =
      (Except.error ⟨"Some of the provided components in zone are not related to the entity", 400⟩,
       dzJoinDB) := by
  constructor
  · exact (updateReferentialIntegrity fixtureReg 1 (varr [vobj [("id", vnum 9)]])
      "sections" secModel [] secJoinDB).1 rfl
  · exact (updateReferentialIntegrity dzReg 1 vnull "zone" secModel
      [vobj [("__component", vstr "default.block"), ("id", vnum 7)]]
      dzJoinDB).2.2 [("7", blockModel)] [("7", secModel)] rfl rfl
      (by
        intro p hp
        rw [List.mem_singleton] at hp
        subst hp
        exact List.mem_singleton.mpr rfl)
      rfl

/-! ## Frame lemmas: what the component store never touches -/

/-- A generic preservation principle for the `runKeys` iteration. -/
theorem runKeys_preserve (step : String → AttrDef → DBRun Unit)
    (P : DBState → DBState → Prop) (hrefl : ∀ s, P s s)
    (htrans : ∀ a b c, P a b → P b c → P a c)
    (l : List (String × AttrDef))
    (hstep : ∀ p ∈ l, ∀ s, P s ((step p.1 p.2 s).2)) :
    ∀ s, P s ((runKeys step l s).2) := by
  induction l with
  | nil => intro s; exact hrefl s
  | cons hd tl ih =>
    intro s
    unfold runKeys
    cases hs : step hd.1 hd.2 s with
    | mk r s1 =>
      have h1 : P s s1 := by
        have := hstep hd (List.mem_cons_self hd tl) s
        rw [hs] at this
        exact this
      cases r with
      | ok a =>
        exact htrans s s1 _ h1
          (ih (fun p hp s2 => hstep p (List.mem_cons_of_mem hd hp) s2) s1)
      | error e => exact h1

theorem compPatch_entities (uid pk : String) (idv val : JVal) (s : DBState) :
    ((compPatch uid pk idv val s).2).entities = s.entities ∧
    ((compPatch uid pk idv val s).2).joins = s.joins := by
  unfold compPatch
  cases hf : s.compRows.find? (fun r => r.uid == uid && idMatches idv r.id) with
  | none => exact ⟨rfl, rfl⟩
  | some row => exact ⟨rfl, rfl⟩

theorem deleteOldComponents_entities (eid : Nat) (v : JVal) (key : String)
    (cm : ComponentModel) (s : DBState) :
    ((deleteOldComponents eid v key cm s).2).entities = s.entities := by
  unfold deleteOldComponents
  dsimp only
  split_ifs <;> rfl

theorem deleteDynamicZoneOldComponents_entities (reg : Registry) (eid : Nat)
    (values : List JVal) (key : String) (s : DBState) :
    ((deleteDynamicZoneOldComponents reg eid values key s).2).entities =
      s.entities := by
  unfold deleteDynamicZoneOldComponents
  cases h1 : dzIdsToKeep reg values with
  | error e => rfl
  | ok keeps =>
    cases h2 : dzAllIds reg (joinsFor s eid key) with
    | error e => rfl
    | ok alls =>
      dsimp only
      split_ifs <;> rfl

theorem updateOrCreateComponentAndLink_entities (cm : ComponentModel)
    (eid : Nat) (key : String) (value : JVal) (ord : Nat) (s : DBState) :
    ((updateOrCreateComponentAndLink cm eid key value ord s).2).entities =
      s.entities := by
  unfold updateOrCreateComponentAndLink
  split_ifs with h
  · cases hp : compPatch cm.uid cm.primaryKey (value.getField cm.primaryKey)
        value s with
    | mk r s1 =>
      have := (compPatch_entities cm.uid cm.primaryKey
        (value.getField cm.primaryKey) value s).1
      rw [hp] at this
      cases r with
      | ok cid => exact this
      | error e => exact this
  · rfl

theorem updateRepeatableItems_entities (cm : ComponentModel) (eid : Nat)
    (key : String) :
    ∀ (items : List JVal) (ord : Nat) (s : DBState),
    ((updateRepeatableItems cm eid key items ord s).2).entities =
      s.entities := by
  intro items
  induction items with
  | nil => intro ord s; rfl
  | cons v rest ih =>
    intro ord s
    unfold updateRepeatableItems
    cases hu : updateOrCreateComponentAndLink cm eid key v ord s with
    | mk r s1 =>
      have h1 : s1.entities = s.entities := by
        have := updateOrCreateComponentAndLink_entities cm eid key v ord s
        rw [hu] at this
        exact this
      cases r with
      | ok a => rw [ih (ord + 1) s1]; exact h1
      | error e => exact h1

theorem updateDZItems_entities (reg : Registry) (eid : Nat) (key : String) :
    ∀ (items : List JVal) (ord : Nat) (s : DBState),
    ((updateDZItems reg eid key items ord s).2).entities = s.entities := by
  intro items
  induction items with
  | nil => intro ord s; rfl
  | cons v rest ih =>
    intro ord s
    unfold updateDZItems
    cases hl : reg.lookup (v.getField "__component").idString with
    | none => rfl
    | some cm =>
      dsimp only
      cases hu : updateOrCreateComponentAndLink cm eid key
          (v.omitField "__component") ord s with
      | mk r s1 =>
        have h1 : s1.entities = s.entities := by
          have := updateOrCreateComponentAndLink_entities cm eid key
            (v.omitField "__component") ord s
          rw [hu] at this
          exact this
        cases r with
        | ok a => rw [ih (ord + 1) s1]; exact h1
        | error e => exact h1

theorem updateComponentsKey_entities (reg : Registry) (eid : Nat)
    (values : List (String × JVal)) (key : String) (attr : AttrDef)
    (s : DBState) :
    ((updateComponentsKey reg eid values key attr s).2).entities =
      s.entities := by
  unfold updateComponentsKey
  split
  · rfl
  · dsimp only
    split
    · -- component branch
      split
      · -- repeatable
        cases hv : validateRepeatableInput (lookupVal values key) key attr with
        | error e => rfl
        | ok u =>
          dsimp only
          cases hl : reg.lookup attr.component with
          | none => rfl
          | some cm =>
            dsimp only
            cases hd : deleteOldComponents eid (lookupVal values key) key cm
                s with
            | mk r s1 =>
              have h1 : s1.entities = s.entities := by
                have := deleteOldComponents_entities eid (lookupVal values key)
                  key cm s
                rw [hd] at this
                exact this
              cases r with
              | error e => exact h1
              | ok u2 =>
                dsimp only
                cases lookupVal values key with
                | varr items =>
                  dsimp only
                  rw [updateRepeatableItems_entities]
                  exact h1
                | vnull => exact h1
                | vbool b => exact h1
                | vnum n => exact h1
                | vstr st => exact h1
                | vobj fields => exact h1
      · -- non-repeatable
        cases hv : validateNonRepeatableInput (lookupVal values key) key
            attr with
        | error e => rfl
        | ok u =>
          dsimp only
          cases hl : reg.lookup attr.component with
          | none => rfl
          | some cm =>
            dsimp only
            cases hd : deleteOldComponents eid (lookupVal values key) key cm
                s with
            | mk r s1 =>
              have h1 : s1.entities = s.entities := by
                have := deleteOldComponents_entities eid (lookupVal values key)
                  key cm s
                rw [hd] at this
                exact this
              cases r with
              | error e => exact h1
              | ok u2 =>
                dsimp only
                split
                · exact h1
                · rw [updateOrCreateComponentAndLink_entities]; exact h1
    · -- dynamiczone branch
      cases hv : validateDynamiczoneInput (lookupVal values key) key attr with
      | error e => rfl
      | ok u =>
        dsimp only
        cases lookupVal values key with
        | varr items =>
          dsimp only
          cases hd : deleteDynamicZoneOldComponents reg eid items key s with
          | mk r s1 =>
            have h1 : s1.entities = s.entities := by
              have := deleteDynamicZoneOldComponents_entities reg eid items
                key s
              rw [hd] at this
              exact this
            cases r with
            | error e => exact h1
            | ok u2 =>
              dsimp only
              rw [updateDZItems_entities]
              exact h1
        | vnull => rfl
        | vbool b => rfl
        | vnum n => rfl
        | vstr st => rfl
        | vobj fields => rfl
    · rfl

theorem updateComponents_entities (reg : Registry) (m : Model) (eid : Nat)
    (values : List (String × JVal)) (s : DBState) :
    ((updateComponents reg m eid values s).2).entities = s.entities :=
  runKeys_preserve _ (fun a b => b.entities = a.entities) (fun _ => rfl)
    (fun _ _ _ h1 h2 => h2.trans h1) _
    (fun p _ s2 => updateComponentsKey_entities reg eid values p.1 p.2 s2) s

theorem filter_filter_not (p q : JoinRow → Bool) (l : List JoinRow)
    (h : ∀ j, q j = true → p j = false) :
    (l.filter (fun j => !p j)).filter q = l.filter q := by
  induction l with
  | nil => rfl
  | cons j rest ih =>
    by_cases hp : p j = true
    · have hq : q j = false := by
        cases hqj : q j with
        | false => rfl
        | true => rw [h j hqj] at hp; cases hp
      simp [List.filter_cons, hp, hq, ih]
    · have hp2 : p j = false := by
        cases hpj : p j with
        | false => rfl
        | true => exact absurd hpj hp
      cases hqj : q j <;> simp [List.filter_cons, hp2, hqj, ih]

theorem filter_append_single (l : List JoinRow) (row : JoinRow)
    (q : JoinRow → Bool) (h : q row = false) :
    (l ++ [row]).filter q = l.filter q := by
  rw [List.filter_append]
  simp [List.filter_cons, h]

theorem filter_map_patch (q : JoinRow → Bool) (f : JoinRow → JoinRow)
    (l : List JoinRow) (hfq : ∀ j, q (f j) = q j)
    (hid : ∀ j, q j = true → f j = j) :
    (l.map f).filter q = l.filter q := by
  induction l with
  | nil => rfl
  | cons j rest ih =>
    cases hqj : q j with
    | true => simp [List.filter_cons, hfq, hqj, hid j hqj, ih]
    | false => simp [List.filter_cons, hfq, hqj, ih]

/-- Join rows of a field other than the one being reconciled survive
`deleteOldComponents` untouched. -/
theorem deleteOldComponents_join_frame (eid : Nat) (v : JVal) (key2 : String)
    (cm : ComponentModel) (s : DBState) (k : String) (hne : k ≠ key2) :
    (((deleteOldComponents eid v key2 cm s).2).joins).filter
      (fun j => j.field == k) = s.joins.filter (fun j => j.field == k) := by
  unfold deleteOldComponents
  dsimp only
  split_ifs with h1 h2
  · dsimp only
    refine filter_filter_not _ _ _ ?_
    intro j hq
    have hf : (j.field == key2) = false :=
      string_beq_false_of_ne (by rw [beq_iff_eq.mp hq]; exact hne)
    rw [hf, Bool.and_false]
  · rfl
  · rfl

theorem deleteDynamicZoneOldComponents_join_frame (reg : Registry) (eid : Nat)
    (values : List JVal) (key2 : String) (s : DBState) (k : String)
    (hne : k ≠ key2) :
    (((deleteDynamicZoneOldComponents reg eid values key2 s).2).joins).filter
      (fun j => j.field == k) = s.joins.filter (fun j => j.field == k) := by
  unfold deleteDynamicZoneOldComponents
  cases h1 : dzIdsToKeep reg values with
  | error e => rfl
  | ok keeps =>
    cases h2 : dzAllIds reg (joinsFor s eid key2) with
    | error e => rfl
    | ok alls =>
      dsimp only
      split_ifs with h3 h4
      · dsimp only
        refine filter_filter_not _ _ _ ?_
        intro j hq
        have hf : (j.field == key2) = false :=
          string_beq_false_of_ne (by rw [beq_iff_eq.mp hq]; exact hne)
        rw [hf, Bool.false_and]
      · rfl
      · rfl

theorem updateOrCreateComponentAndLink_join_frame (cm : ComponentModel)
    (eid : Nat) (key2 : String) (value : JVal) (ord : Nat) (s : DBState)
    (k : String) (hne : k ≠ key2) :
    (((updateOrCreateComponentAndLink cm eid key2 value ord s).2).joins).filter
      (fun j => j.field == k) = s.joins.filter (fun j => j.field == k) := by
  unfold updateOrCreateComponentAndLink
  split
  · cases hp : compPatch cm.uid cm.primaryKey (value.getField cm.primaryKey)
        value s with
    | mk r s1 =>
      have h1 : s1.joins = s.joins := by
        have := (compPatch_entities cm.uid cm.primaryKey
          (value.getField cm.primaryKey) value s).2
        rw [hp] at this
        exact this
      cases r with
      | ok cid =>
        dsimp only [joinPatchOrder]
        rw [filter_map_patch, h1]
        · intro j
          split <;> rfl
        · intro j hq
          have hf : (j.field == key2) = false :=
            string_beq_false_of_ne (by rw [beq_iff_eq.mp hq]; exact hne)
          rw [hf, Bool.and_false]
          rfl
      | error e => exact congrArg (List.filter fun j => j.field == k) h1
  · dsimp only [createComponentAndLink, joinInsert, compCreate]
    refine filter_append_single _ _ _ ?_
    exact string_beq_false_of_ne (Ne.symm hne)

theorem updateRepeatableItems_join_frame (cm : ComponentModel) (eid : Nat)
    (key2 : String) (k : String) (hne : k ≠ key2) :
    ∀ (items : List JVal) (ord : Nat) (s : DBState),
    (((updateRepeatableItems cm eid key2 items ord s).2).joins).filter
      (fun j => j.field == k) = s.joins.filter (fun j => j.field == k) := by
  intro items
  induction items with
  | nil => intro ord s; rfl
  | cons v rest ih =>
    intro ord s
    unfold updateRepeatableItems
    cases hu : updateOrCreateComponentAndLink cm eid key2 v ord s with
    | mk r s1 =>
      have h1 := updateOrCreateComponentAndLink_join_frame cm eid key2 v ord
        s k hne
      rw [hu] at h1
      cases r with
      | ok a => rw [ih (ord + 1) s1]; exact h1
      | error e => exact h1

theorem updateDZItems_join_frame (reg : Registry) (eid : Nat) (key2 : String)
    (k : String) (hne : k ≠ key2) :
    ∀ (items : List JVal) (ord : Nat) (s : DBState),
    (((updateDZItems reg eid key2 items ord s).2).joins).filter
      (fun j => j.field == k) = s.joins.filter (fun j => j.field == k) := by
  intro items
  induction items with
  | nil => intro ord s; rfl
  | cons v rest ih =>
    intro ord s
    unfold updateDZItems
    cases hl : reg.lookup (v.getField "__component").idString with
    | none => rfl
    | some cm =>
      dsimp only
      cases hu : updateOrCreateComponentAndLink cm eid key2
          (v.omitField "__component") ord s with
      | mk r s1 =>
        have h1 := updateOrCreateComponentAndLink_join_frame cm eid key2
          (v.omitField "__component") ord s k hne
        rw [hu] at h1
        cases r with
        | ok a => rw [ih (ord + 1) s1]; exact h1
        | error e => exact h1

/-- A component key absent from the payload is skipped by
`updateComponents` with no state change. -/
theorem updateComponentsKey_skip (reg : Registry) (eid : Nat)
    (values : List (String × JVal)) (key : String) (attr : AttrDef)
    (s : DBState) (h : hasKey values key = false) :
    updateComponentsKey reg eid values key attr s = (Except.ok (), s) := by
  unfold updateComponentsKey
  rw [h]
  rfl

theorem updateComponentsKey_join_frame (reg : Registry) (eid : Nat)
    (values : List (String × JVal)) (key2 : String) (attr : AttrDef)
    (s : DBState) (k : String) (hne : k ≠ key2) :
    (((updateComponentsKey reg eid values key2 attr s).2).joins).filter
      (fun j => j.field == k) = s.joins.filter (fun j => j.field == k) := by
  unfold updateComponentsKey
  split
  · rfl
  · dsimp only
    split
    · split
      · cases hv : validateRepeatableInput (lookupVal values key2) key2
            attr with
        | error e => rfl
        | ok u =>
          dsimp only
          cases hl : reg.lookup attr.component with
          | none => rfl
          | some cm =>
            dsimp only
            cases hd : deleteOldComponents eid (lookupVal values key2) key2 cm
                s with
            | mk r s1 =>
              have h1 := deleteOldComponents_join_frame eid
                (lookupVal values key2) key2 cm s k hne
              rw [hd] at h1
              cases r with
              | error e => exact h1
              | ok u2 =>
                dsimp only
                cases lookupVal values key2 with
                | varr items =>
                  dsimp only
                  rw [updateRepeatableItems_join_frame cm eid key2 k hne]
                  exact h1
                | vnull => exact h1
                | vbool b => exact h1
                | vnum n => exact h1
                | vstr st => exact h1
                | vobj fields => exact h1
      · cases hv : validateNonRepeatableInput (lookupVal values key2) key2
            attr with
        | error e => rfl
        | ok u =>
          dsimp only
          cases hl : reg.lookup attr.component with
          | none => rfl
          | some cm =>
            dsimp only
            cases hd : deleteOldComponents eid (lookupVal values key2) key2 cm
                s with
            | mk r s1 =>
              have h1 := deleteOldComponents_join_frame eid
                (lookupVal values key2) key2 cm s k hne
              rw [hd] at h1
              cases r with
              | error e => exact h1
              | ok u2 =>
                dsimp only
                split
                · exact h1
                · rw [updateOrCreateComponentAndLink_join_frame cm eid key2
                    (lookupVal values key2) 1 s1 k hne]
                  exact h1
    · cases hv : validateDynamiczoneInput (lookupVal values key2) key2
          attr with
      | error e => rfl
      | ok u =>
        dsimp only
        cases lookupVal values key2 with
        | varr items =>
          dsimp only
          cases hd : deleteDynamicZoneOldComponents reg eid items key2 s with
          | mk r s1 =>
            have h1 := deleteDynamicZoneOldComponents_join_frame reg eid items
              key2 s k hne
            rw [hd] at h1
            cases r with
            | error e => exact h1
            | ok u2 =>
              dsimp only
              rw [updateDZItems_join_frame reg eid key2 k hne]
              exact h1
        | vnull => rfl
        | vbool b => rfl
        | vnum n => rfl
        | vstr st => rfl
        | vobj fields => rfl
    · rfl

theorem wrapTransaction_ok {α : Type} (m : Model) (t : Bool) (fn : DBRun α)
    (s s2 : DBState) (a : α)
    (h : wrapTransaction m t fn s = (Except.ok a, s2)) :
    fn s = (Except.ok a, s2) := by
  unfold wrapTransaction at h
  split_ifs at h
  · exact h
  · exact h
  · cases hfn : fn s with
    | mk r s3 =>
      rw [hfn] at h
      cases r with
      | ok b => dsimp only at h; exact h
      | error e =>
        dsimp only at h
        injection h with h1 h2
        exact absurd h1 (by simp)

theorem find?_filter_of_imp (pr q : String × JVal → Bool)
    (l : List (String × JVal)) (h : ∀ p, pr p = true → q p = true) :
    (l.filter q).find? pr = l.find? pr := by
  induction l with
  | nil => rfl
  | cons a rest ih =>
    by_cases hpr : pr a = true
    · rw [List.filter_cons, h a hpr]
      simp only [if_true]
      rw [List.find?_cons_of_pos _ hpr, List.find?_cons_of_pos _ hpr]
    · rw [List.filter_cons]
      cases hq : q a with
      | true =>
        simp only [if_true]
        rw [List.find?_cons_of_neg _ hpr, List.find?_cons_of_neg _ hpr]
        exact ih
      | false =>
        simp only [Bool.false_eq_true, if_false]
        rw [List.find?_cons_of_neg _ hpr]
        exact ih

/-- Patching stores the supplied columns and leaves every other column of
the row unchanged. -/
theorem patchFields_lookup_frame (old data : List (String × JVal))
    (kk pk : String) (h : data.all (fun p => p.1 != kk) = true) :
    lookupVal (patchFields old data pk) kk = lookupVal old kk := by
  unfold patchFields lookupVal
  rw [List.find?_append]
  have hdata : (data.filter (fun p => p.1 != pk)).find?
      (fun p => p.1 == kk) = none := by
    rw [List.find?_eq_none]
    intro p hp
    have hpd := (List.mem_filter.mp hp).1
    have h2 := List.all_eq_true.mp h p hpd
    intro hc
    rw [bne, hc] at h2
    cases h2
  have hold : ((old.filter (fun p => !data.any (fun q => q.1 == p.1))).find?
      (fun p => p.1 == kk)) = old.find? (fun p => p.1 == kk) := by
    refine find?_filter_of_imp _ _ _ ?_
    intro p hpr
    have hk : p.1 = kk := beq_iff_eq.mp hpr
    have hany : data.any (fun q => q.1 == p.1) = false := by
      rw [List.any_eq_false]
      intro q hq
      have h2 := List.all_eq_true.mp h q hq
      intro hc
      rw [hk] at hc
      rw [bne, hc] at h2
      cases h2
    rw [hany]
    rfl
  rw [hdata, hold]
  cases old.find? (fun p => p.1 == kk) <;> rfl

theorem runKeys_id (step : String → AttrDef → DBRun Unit)
    (l : List (String × AttrDef))
    (h : ∀ p ∈ l, ∀ s, step p.1 p.2 s = (Except.ok (), s)) :
    ∀ s, runKeys step l s = (Except.ok (), s) := by
  induction l with
  | nil => intro s; rfl
  | cons hd tl ih =>
    intro s
    unfold runKeys
    rw [h hd (List.mem_cons_self hd tl) s]
    exact ih (fun p hp s2 => h p (List.mem_cons_of_mem hd hp) s2) s

theorem wrapTransaction_entities {α : Type} (m : Model) (t : Bool)
    (fn : DBRun α) (s : DBState) (h : ((fn s).2).entities = s.entities) :
    ((wrapTransaction m t fn s).2).entities = s.entities := by
  unfold wrapTransaction
  split_ifs
  · exact h
  · exact h
  · cases hfn : fn s with
    | mk r s1 =>
      rw [hfn] at h
      cases r with
      | ok a => exact h
      | error e => rfl

/-- C7: update is a true partial patch. A component/dynamiczone field absent
from the payload is skipped with no state change; when every such field is
absent, `updateComponents` is a complete no-op; the join rows of an absent
field survive any `updateComponents` run untouched; the entity row is
patched only when at least one scalar attribute is supplied; and patching
changes only the supplied columns. -/
theorem updatePartialPatch (reg : Registry) (m : Model)
    (params values : List (String × JVal)) (k : String) (attr : AttrDef)
    (eid : Nat) (t : Bool) (s : DBState) :
    (hasKey values k = false →
      updateComponentsKey reg eid values k attr s = (Except.ok (), s)) ∧
    ((∀ p ∈ componentAttrs m, hasKey values p.1 = false) →
      updateComponents reg m eid values s = (Except.ok (), s)) ∧
    (hasKey values k = false →
      (((updateComponents reg m eid values s).2).joins).filter
        (fun j => j.field == k) = s.joins.filter (fun j => j.field == k)) ∧
    (selectAttributes m values = [] →
      ((update reg m params values t s).2).entities = s.entities) ∧
    (∀ entry u s1,
      s.entities.find? (fun r => rowMatchesParams m r params) = some entry →
      update reg m params values t s = (Except.ok u, s1) →
      selectAttributes m values ≠ [] →
      s1.entities =
        (patchEntity entry.id (selectAttributes m values) s).entities) ∧
    (∀ (old data : List (String × JVal)) (kk pk : String),
      data.all (fun p => p.1 != kk) = true →
      lookupVal (patchFields old data pk) kk = lookupVal old kk) := by
  refine ⟨fun h => updateComponentsKey_skip reg eid values k attr s h,
    ?_, ?_, ?_, ?_,
    fun old data kk pk h => patchFields_lookup_frame old data kk pk h⟩
  · intro habs
    exact runKeys_id _ _ (fun p hp s2 =>
      updateComponentsKey_skip reg eid values p.1 p.2 s2 (habs p hp)) s
  · intro hk
    refine runKeys_preserve _
      (fun a b => b.joins.filter (fun j => j.field == k) =
        a.joins.filter (fun j => j.field == k))
      (fun _ => rfl) (fun _ _ _ h1 h2 => h2.trans h1) _ ?_ s
    intro p _ s2
    by_cases hpk : p.1 = k
    · rw [updateComponentsKey_skip reg eid values p.1 p.2 s2 (hpk ▸ hk)]
    · exact updateComponentsKey_join_frame reg eid values p.1 p.2 s2 k
        (fun hh => hpk hh.symm)
  · intro hdata
    unfold update
    cases hf : s.entities.find? (fun r => rowMatchesParams m r params) with
    | none => rfl
    | some entry =>
      dsimp only
      refine wrapTransaction_entities m t _ s ?_
      dsimp only
      rw [hdata]
      simp only [List.length_nil, gt_iff_lt, lt_self_iff_false, if_false]
      cases hc : updateComponents reg m entry.id values s with
      | mk r s2 =>
        have h2 := updateComponents_entities reg m entry.id values s
        rw [hc] at h2
        cases r with
        | error e => exact h2
        | ok u2 =>
          dsimp only
          split_ifs <;> exact h2
  · intro entry u s1 hf heq hdata
    unfold update at heq
    rw [hf] at heq
    have hrun := wrapTransaction_ok m t _ s s1 u heq
    dsimp only at hrun
    rw [if_pos (by
      have := List.length_pos.mpr hdata
      omega)] at hrun
    cases hc : updateComponents reg m entry.id values
        (patchEntity entry.id (selectAttributes m values) s) with
    | mk r s2 =>
      rw [hc] at hrun
      have h2 := updateComponents_entities reg m entry.id values
        (patchEntity entry.id (selectAttributes m values) s)
      rw [hc] at h2
      cases r with
      | error e =>
        dsimp only at hrun
        injection hrun with h3 h4
        exact absurd h3 (by simp)
      | ok u2 =>
        dsimp only at hrun
        split_ifs at hrun
        · injection hrun with h3 h4
          rw [← h4]
          exact h2
        · injection hrun with h3 h4
          rw [← h4]
          exact h2

/-- The `sections` attribute metadata of `articleModel`. -/
def secAttr : AttrDef :=
  { type := "component", component := "default.sec", required := true,
    repeatable := true }

/-- Witness for C7: with a payload touching only the scalar `title`, the
`sections` key step is a no-op, the whole component phase is a no-op, the
`sections` join rows survive, the entity row is patched to the supplied
columns, and an unsupplied column keeps its value. -/
theorem updatePartialPatch_witness :
    updateComponentsKey fixtureReg 1 [("title", vstr "B")] "sections"
      secAttr secJoinDB = (Except.ok (), secJoinDB) ∧
    updateComponents fixtureReg articleModel 1 [("title", vstr "B")]
      secJoinDB = (Except.ok (), secJoinDB) ∧
    ((((updateComponents fixtureReg articleModel 1 [("title", vstr "B")]
        secJoinDB).2).joins).filter (fun j => j.field == "sections") =
      secJoinDB.joins.filter (fun j => j.field == "sections")) ∧
    ((update fixtureReg articleModel [("id", vnum 1)] [("title", vstr "B")]
      false secJoinDB).2.entities =
      (patchEntity 1 [("title", vstr "B")] secJoinDB).entities) ∧
    lookupVal (patchFields [("a", vnum 1), ("b", vnum 2)] [("b", vnum 9)]
      "id") "a" = lookupVal [("a", vnum 1), ("b", vnum 2)] "a" := by
  have habs : ∀ p ∈ componentAttrs articleModel,
      hasKey [("title", vstr "B")] p.1 = false := by
    intro p hp
    rw [show componentAttrs articleModel = [("sections", secAttr)] from rfl,
      List.mem_singleton] at hp
    subst hp
    rfl
  refine ⟨?_, ?_, ?_, ?_, ?_⟩
  · exact (updatePartialPatch fixtureReg articleModel [] [("title", vstr "B")]
      "sections" secAttr 1 false secJoinDB).1 rfl
  · exact (updatePartialPatch fixtureReg articleModel [] [("title", vstr "B")]
      "sections" secAttr 1 false secJoinDB).2.1 habs
  · exact (updatePartialPatch fixtureReg articleModel [] [("title", vstr "B")]
      "sections" secAttr 1 false secJoinDB).2.2.1 rfl
  · exact (updatePartialPatch fixtureReg articleModel [("id", vnum 1)]
      [("title", vstr "B")] "sections" secAttr 1 false
      secJoinDB).2.2.2.2.1 ⟨1, [("title", vstr "A")]⟩ ()
      (update fixtureReg articleModel [("id", vnum 1)] [("title", vstr "B")]
        false secJoinDB).2 rfl (by rfl)
      (fun hh => List.noConfusion
        (show [(("title" : String), vstr "B")] = [] from hh))
  · exact (updatePartialPatch fixtureReg articleModel [] [] "sections"
      secAttr 1 false secJoinDB).2.2.2.2.2
      [("a", vnum 1), ("b", vnum 2)] [("b", vnum 9)] "a" "id" rfl

/-! ## createComponents characterization -/

/-- The rows §4.3 says the create path produces for a list of items of one
component model: for the item at 0-based position `i`, a component-instance
row holding the item's data with id `base + i`, and a join row linking it to
the entry at `(field, ord + i)`. Spec-side description, compared with the
implementation's `createRepeatableItems`. -/
def specCreatedRows (uid collName : String) (eid : Nat) (key : String) :
    List JVal → Nat → Nat → List CompRow × List JoinRow
  | [], _, _ => ([], [])
  | v :: rest, base, ord =>
    let r := specCreatedRows uid collName eid key rest (base + 1) (ord + 1)
    (⟨uid, base, v⟩ :: r.1, ⟨eid, collName, base, key, ord⟩ :: r.2)

/-- The rows §4.3 says the dynamiczone create path produces: each item's
component model is resolved from its `__component` discriminant, the stored
data is the item with the discriminant stripped, and the join row carries
that model's collection name. Spec-side description, compared with
`createDZItems`. -/
def specCreatedDZRows (reg : Registry) (eid : Nat) (key : String) :
    List JVal → Nat → Nat → List CompRow × List JoinRow
  | [], _, _ => ([], [])
  | v :: rest, base, ord =>
    match reg.lookup (v.getField "__component").idString with
    | none => ([], [])
    | some cm =>
      let r := specCreatedDZRows reg eid key rest (base + 1) (ord + 1)
      (⟨cm.uid, base, v.omitField "__component"⟩ :: r.1,
       ⟨eid, cm.collectionName, base, key, ord⟩ :: r.2)

theorem createRepeatableItems_spec (cm : ComponentModel) (eid : Nat)
    (key : String) :
    ∀ (items : List JVal) (ord : Nat) (s : DBState),
    createRepeatableItems cm eid key items ord s =
      { s with
        nextId := s.nextId + items.length
        compRows := s.compRows ++
          (specCreatedRows cm.uid cm.collectionName eid key items
            s.nextId ord).1
        joins := s.joins ++
          (specCreatedRows cm.uid cm.collectionName eid key items
            s.nextId ord).2 } := by
  intro items
  induction items with
  | nil =>
    intro ord s
    simp [createRepeatableItems, specCreatedRows]
  | cons v rest ih =>
    intro ord s
    unfold createRepeatableItems
    rw [ih]
    simp [createComponentAndLink, compCreate, joinInsert, specCreatedRows,
      List.append_assoc]
    omega

theorem createDZItems_spec (reg : Registry) (eid : Nat) (key : String) :
    ∀ (items : List JVal) (ord : Nat) (s : DBState),
    (∀ v ∈ items, (reg.lookup (v.getField "__component").idString).isSome) →
    createDZItems reg eid key items ord s =
      (Except.ok (),
       { s with
         nextId := s.nextId + items.length
         compRows := s.compRows ++
           (specCreatedDZRows reg eid key items s.nextId ord).1
         joins := s.joins ++
           (specCreatedDZRows reg eid key items s.nextId ord).2 }) := by
  intro items
  induction items with
  | nil =>
    intro ord s _
    simp [createDZItems, specCreatedDZRows]
  | cons v rest ih =>
    intro ord s hreg
    unfold createDZItems
    cases hl : reg.lookup (v.getField "__component").idString with
    | none =>
      have := hreg v (List.mem_cons_self v rest)
      rw [hl] at this
      cases this
    | some cm =>
      dsimp only
      rw [ih (ord + 1) _ (fun w hw => hreg w (List.mem_cons_of_mem v hw))]
      simp [specCreatedDZRows, hl, createComponentAndLink, compCreate,
        joinInsert, List.append_assoc]
      omega

/-- C6: `createComponents` per-field behaviour. A field absent from the
payload is skipped with no state change, unless it is required, which is a
status-400 error; a non-repeatable `null` is validated then skipped (or
rejected when required); each repeatable item creates a component-instance
row and a join record at 1-based order; a single non-repeatable object is
created at fixed order 1; dynamiczone items are created with the
`__component` discriminant stripped, joined under the declared component's
collection name at 1-based order. -/
theorem createComponentsBehaviour (reg : Registry) (eid : Nat)
    (values : List (String × JVal)) (key : String) (attr : AttrDef)
    (s : DBState) :
    ((attr.type = "component" ∨ attr.type = "dynamiczone") →
      attr.required = false → hasKey values key = false →
      createComponentsKey reg eid values key attr s = (Except.ok (), s)) ∧
    ((attr.type = "component" ∨ attr.type = "dynamiczone") →
      attr.required = true → hasKey values key = false →
      ∃ e, createComponentsKey reg eid values key attr s =
        (Except.error e, s) ∧ e.status = 400) ∧
    (attr.type = "component" → attr.repeatable = false →
      hasKey values key = true → lookupVal values key = vnull →
      ((attr.required = false →
        createComponentsKey reg eid values key attr s = (Except.ok (), s)) ∧
       (attr.required = true →
        createComponentsKey reg eid values key attr s =
          (Except.error ⟨"Component " ++ key ++ " is required", 400⟩, s)))) ∧
    (∀ items cm, attr.type = "component" → attr.repeatable = true →
      hasKey values key = true → lookupVal values key = varr items →
      validateRepeatableInput (varr items) key attr = Except.ok () →
      reg.lookup attr.component = some cm →
      createComponentsKey reg eid values key attr s =
        (Except.ok (),
         { s with
           nextId := s.nextId + items.length
           compRows := s.compRows ++
             (specCreatedRows cm.uid cm.collectionName eid key items
               s.nextId 1).1
           joins := s.joins ++
             (specCreatedRows cm.uid cm.collectionName eid key items
               s.nextId 1).2 })) ∧
    (∀ v cm, attr.type = "component" → attr.repeatable = false →
      hasKey values key = true → lookupVal values key = v →
      v.isPlainObject = true →
      reg.lookup attr.component = some cm →
      createComponentsKey reg eid values key attr s =
        (Except.ok (),
         { s with
           nextId := s.nextId + 1
           compRows := s.compRows ++ [⟨cm.uid, s.nextId, v⟩]
           joins := s.joins ++ [⟨eid, cm.collectionName, s.nextId, key, 1⟩] })) ∧
    (∀ items, attr.type = "dynamiczone" → hasKey values key = true →
      lookupVal values key = varr items →
      validateDynamiczoneInput (varr items) key attr = Except.ok () →
      (∀ v ∈ items, (reg.lookup (v.getField "__component").idString).isSome) →
      createComponentsKey reg eid values key attr s =
        (Except.ok (),
         { s with
           nextId := s.nextId + items.length
           compRows := s.compRows ++
             (specCreatedDZRows reg eid key items s.nextId 1).1
           joins := s.joins ++
             (specCreatedDZRows reg eid key items s.nextId 1).2 })) := by
  refine ⟨?_, ?_, ?_, ?_, ?_, ?_⟩
  · rintro (htype | htype) hreq hkey <;>
      simp [createComponentsKey, htype, hreq, hkey]
  · rintro (htype | htype) hreq hkey
    · exact ⟨⟨"Component " ++ key ++ " is required", 400⟩,
        by simp [createComponentsKey, htype, hreq, hkey], rfl⟩
    · exact ⟨⟨"Dynamiczone " ++ key ++ " is required", 400⟩,
        by simp [createComponentsKey, htype, hreq, hkey], rfl⟩
  · intro htype hrep hkey hval
    constructor <;> intro hreq <;>
      simp [createComponentsKey, htype, hrep, hkey, hval, hreq,
        validateNonRepeatableInput, JVal.isObjectLike, JVal.isNull]
  · intro items cm htype hrep hkey hvv hval hlook
    rw [show createComponentsKey reg eid values key attr s =
      (Except.ok (), createRepeatableItems cm eid key items 1 s) from by
        simp [createComponentsKey, htype, hrep, hkey, hvv, hval, hlook]]
    rw [createRepeatableItems_spec]
  · intro v cm htype hrep hkey hvv hobj hlook
    cases v with
    | vobj fields =>
      simp [createComponentsKey, htype, hrep, hkey, hvv, hlook,
        validateNonRepeatableInput, JVal.isObjectLike, JVal.isNull,
        createComponentAndLink, compCreate, joinInsert]
    | vnull => cases hobj
    | vbool b => cases hobj
    | vnum n => cases hobj
    | vstr st => cases hobj
    | varr l => cases hobj
  · intro items htype hkey hvv hval hreg
    rw [show createComponentsKey reg eid values key attr s =
      createDZItems reg eid key items 1 s from by
        simp [createComponentsKey, htype, hkey, hvv, hval]]
    rw [createDZItems_spec reg eid key items 1 s hreg]

/-- An optional (non-required) repeatable component attribute fixture. -/
def optSecAttr : AttrDef :=
  { type := "component", component := "default.sec", repeatable := true }

/-- A non-repeatable component attribute fixture. -/
def coverAttr : AttrDef := { type := "component", component := "default.sec" }

/-- Witness for C6: skipping an absent optional field, rejecting an absent
required field, skipping a null non-repeatable value, creating two
repeatable items at orders 1 and 2, creating a single non-repeatable item
at order 1, and creating a dynamiczone item with its discriminant
stripped. -/
theorem createComponentsBehaviour_witness :
    createComponentsKey fixtureReg 1 [] "sections" optSecAttr emptyDB =
      (Except.ok (), emptyDB) ∧
    (∃ e, createComponentsKey fixtureReg 1 [] "sections" secAttr emptyDB =
      (Except.error e, emptyDB) ∧ e.status = 400) ∧
    createComponentsKey fixtureReg 1 [("cover", vnull)] "cover" coverAttr
      emptyDB = (Except.ok (), emptyDB) ∧
    createComponentsKey fixtureReg 1
      [("sections", varr [vobj [("text", vstr "x")], vobj [("text", vstr "y")]])]
      "sections" secAttr emptyDB =
      (Except.ok (),
       ⟨[], [⟨"default.sec", 1, vobj [("text", vstr "x")]⟩,
             ⟨"default.sec", 2, vobj [("text", vstr "y")]⟩],
        [⟨1, "components_secs", 1, "sections", 1⟩,
         ⟨1, "components_secs", 2, "sections", 2⟩], [], 3⟩) ∧
    createComponentsKey fixtureReg 1 [("cover", vobj [("u", vstr "p")])]
      "cover" coverAttr emptyDB =
      (Except.ok (),
       ⟨[], [⟨"default.sec", 1, vobj [("u", vstr "p")]⟩],
        [⟨1, "components_secs", 1, "cover", 1⟩], [], 2⟩) ∧
    createComponentsKey fixtureReg 1
      [("zone", varr [vobj [("__component", vstr "default.sec"), ("text", vstr "z")]])]
      "zone" dzFixtureAttr emptyDB =
      (Except.ok (),
       ⟨[], [⟨"default.sec", 1, vobj [("text", vstr "z")]⟩],
        [⟨1, "components_secs", 1, "zone", 1⟩], [], 2⟩) := by
  refine ⟨?_, ?_, ?_, ?_, ?_, ?_⟩
  · exact (createComponentsBehaviour fixtureReg 1 [] "sections" optSecAttr
      emptyDB).1 (Or.inl rfl) rfl rfl
  · exact (createComponentsBehaviour fixtureReg 1 [] "sections" secAttr
      emptyDB).2.1 (Or.inl rfl) rfl rfl
  · exact ((createComponentsBehaviour fixtureReg 1 [("cover", vnull)] "cover"
      coverAttr emptyDB).2.2.1 rfl rfl rfl rfl).1 rfl
  · exact (createComponentsBehaviour fixtureReg 1
      [("sections", varr [vobj [("text", vstr "x")], vobj [("text", vstr "y")]])]
      "sections" secAttr emptyDB).2.2.2.1
      [vobj [("text", vstr "x")], vobj [("text", vstr "y")]] secModel rfl rfl
      rfl rfl rfl rfl
  · exact (createComponentsBehaviour fixtureReg 1
      [("cover", vobj [("u", vstr "p")])] "cover" coverAttr
      emptyDB).2.2.2.2.1 (vobj [("u", vstr "p")]) secModel rfl rfl rfl rfl
      rfl rfl
  · exact (createComponentsBehaviour fixtureReg 1
      [("zone", varr [vobj [("__component", vstr "default.sec"), ("text", vstr "z")]])]
      "zone" dzFixtureAttr emptyDB).2.2.2.2.2
      [vobj [("__component", vstr "default.sec"), ("text", vstr "z")]] rfl rfl
      rfl rfl
      (by
        intro v hv
        rw [List.mem_singleton] at hv
        subst hv
        rfl)

/-! ## updateComponents reconciliation -/

theorem exists_mem_of_map_eq {α β : Type} (f : α → β) (l1 l2 : List α)
    (h : l1.map f = l2.map f) (q : β → Bool) :
    (∃ x ∈ l1, q (f x) = true) → ∃ y ∈ l2, q (f y) = true := by
  rintro ⟨x, hx, hq⟩
  have hmem : f x ∈ l2.map f := h ▸ List.mem_map_of_mem f hx
  obtain ⟨y, hy, hfy⟩ := List.mem_map.mp hmem
  exact ⟨y, hy, by rw [hfy]; exact hq⟩

theorem map_map_eq_of_comp {α β : Type} (f : α → α) (g : α → β)
    (l : List α) (h : ∀ a, g (f a) = g a) : (l.map f).map g = l.map g := by
  induction l with
  | nil => rfl
  | cons a rest ih => simp [h, ih]

/-- When every supplied id is among the existing ids and no join row's
component id is shared across entities under a field, `deleteOldComponents`
succeeds and removes exactly the join rows of this `(entry, field)` whose
component id is in the difference existing-minus-supplied, and exactly the
component-instance rows of this component model whose id is in that
difference. -/
theorem deleteOldComponents_success (eid : Nat) (v : JVal) (key : String)
    (cm : ComponentModel) (s : DBState)
    (hkeep : (suppliedIds v cm).all
      (fun id => (existingIds s eid key).contains id) = true)
    (ho : ∀ j1 ∈ s.joins, ∀ j2 ∈ s.joins, j1.field = j2.field →
      toString j1.componentId = toString j2.componentId →
      j1.entryId = j2.entryId) :
    deleteOldComponents eid v key cm s =
      (Except.ok (),
       { s with
         joins := s.joins.filter (fun j =>
           !(j.entryId == eid && j.field == key &&
             ((existingIds s eid key).filter
               (fun id => !(suppliedIds v cm).contains id)).contains
                 (toString j.componentId)))
         compRows := s.compRows.filter (fun r =>
           !(r.uid == cm.uid &&
             ((existingIds s eid key).filter
               (fun id => !(suppliedIds v cm).contains id)).contains
                 (toString r.id))) }) := by
  have hjoins : s.joins.filter (fun j =>
      !(((existingIds s eid key).filter
          (fun id => !(suppliedIds v cm).contains id)).contains
            (toString j.componentId) && j.field == key)) =
      s.joins.filter (fun j =>
        !(j.entryId == eid && j.field == key &&
          ((existingIds s eid key).filter
            (fun id => !(suppliedIds v cm).contains id)).contains
              (toString j.componentId))) := by
    refine List.filter_congr ?_
    intro j hj
    by_cases hc : ((existingIds s eid key).filter
        (fun id => !(suppliedIds v cm).contains id)).contains
          (toString j.componentId) = true
    · by_cases hf : (j.field == key) = true
      · have he : j.entryId = eid := by
          have hmem : toString j.componentId ∈
              (existingIds s eid key).filter
                (fun id => !(suppliedIds v cm).contains id) := by
            exact List.elem_iff.mp hc
          have hmem2 : toString j.componentId ∈ existingIds s eid key :=
            (List.mem_filter.mp hmem).1
          obtain ⟨j2, hj2, hj2id⟩ := List.mem_map.mp hmem2
          have hj2mem := List.mem_filter.mp hj2
          have hj2cond := hj2mem.2
          simp only [Bool.and_eq_true, beq_iff_eq] at hj2cond
          exact (ho j hj j2 hj2mem.1
            (by rw [beq_iff_eq.mp hf, hj2cond.2]) hj2id.symm).trans
            hj2cond.1
        rw [hc, hf, show (j.entryId == eid) = true from beq_iff_eq.mpr he]
        simp
      · have hf2 : (j.field == key) = false := by
          cases hx : (j.field == key) with
          | false => rfl
          | true => exact absurd hx hf
        rw [hf2]
        simp
    · have hc2 : ((existingIds s eid key).filter
          (fun id => !(suppliedIds v cm).contains id)).contains
            (toString j.componentId) = false := by
        cases hx : ((existingIds s eid key).filter
            (fun id => !(suppliedIds v cm).contains id)).contains
              (toString j.componentId) with
        | false => rfl
        | true => exact absurd hx hc
      rw [hc2]
      simp
  unfold deleteOldComponents
  dsimp only
  rw [hkeep]
  simp only [if_true]
  by_cases hlen : ((existingIds s eid key).filter
      (fun id => !(suppliedIds v cm).contains id)).length > 0
  · rw [if_pos hlen, hjoins]
  · rw [if_neg hlen]
    have hnil : (existingIds s eid key).filter
        (fun id => !(suppliedIds v cm).contains id) = [] := by
      cases hx : (existingIds s eid key).filter
          (fun id => !(suppliedIds v cm).contains id) with
      | nil => rfl
      | cons a rest => rw [hx] at hlen; exact absurd (by simp) hlen
    rw [hnil]
    simp

/-- When the supplied id set covers every existing id, `deleteOldComponents`
deletes nothing. -/
theorem deleteOldComponents_noop (eid : Nat) (v : JVal) (key : String)
    (cm : ComponentModel) (s : DBState)
    (hkeep : (suppliedIds v cm).all
      (fun id => (existingIds s eid key).contains id) = true)
    (hsup : ∀ id ∈ existingIds s eid key,
      (suppliedIds v cm).contains id = true) :
    deleteOldComponents eid v key cm s = (Except.ok (), s) := by
  have hnil : (existingIds s eid key).filter
      (fun id => !(suppliedIds v cm).contains id) = [] := by
    rw [List.filter_eq_nil_iff]
    intro id hid
    rw [hsup id hid]
    simp
  unfold deleteOldComponents
  dsimp only
  rw [hkeep]
  simp only [if_true, hnil]
  simp

/-- An item carrying the primary key of an existing component instance
patches that instance in place — the (uid, id) column pairs of the
component tables are unchanged — and patches its join row's order. -/
theorem updateOrCreate_patch (cm : ComponentModel) (eid : Nat) (key : String)
    (value : JVal) (ord : Nat) (s : DBState) (row : CompRow)
    (hhas : value.hasField cm.primaryKey = true)
    (hfind : s.compRows.find? (fun r => r.uid == cm.uid &&
      idMatches (value.getField cm.primaryKey) r.id) = some row) :
    (updateOrCreateComponentAndLink cm eid key value ord s).1 =
      Except.ok () ∧
    ((updateOrCreateComponentAndLink cm eid key value ord s).2).compRows.map
      (fun r => (r.uid, r.id)) = s.compRows.map (fun r => (r.uid, r.id)) ∧
    ((updateOrCreateComponentAndLink cm eid key value ord s).2).joins =
      s.joins.map (fun j =>
        if j.entryId == eid && j.componentType == cm.collectionName &&
            j.componentId == row.id && j.field == key then
          { j with order := ord }
        else j) := by
  unfold updateOrCreateComponentAndLink compPatch joinPatchOrder
  rw [hhas, hfind]
  refine ⟨rfl, ?_, rfl⟩
  exact map_map_eq_of_comp _ _ _ (fun r => by split <;> rfl)

/-- An item without a primary key creates a new component instance and a
new join row at the given order. -/
theorem updateOrCreate_create (cm : ComponentModel) (eid : Nat)
    (key : String) (value : JVal) (ord : Nat) (s : DBState)
    (hhas : value.hasField cm.primaryKey = false) :
    updateOrCreateComponentAndLink cm eid key value ord s =
      (Except.ok (),
       { s with
         nextId := s.nextId + 1
         compRows := s.compRows ++ [⟨cm.uid, s.nextId, value⟩]
         joins := s.joins ++ [⟨eid, cm.collectionName, s.nextId, key, ord⟩] }) := by
  unfold updateOrCreateComponentAndLink
  rw [hhas]
  rfl

/-- The item loop of the repeatable update path, when every item carries the
id of an existing instance of the component model, patches in place: it
creates no component row, deletes none, and preserves every join row's
identifying columns. -/
theorem updateRepeatableItems_noop (cm : ComponentModel) (eid : Nat)
    (key : String) :
    ∀ (items : List JVal) (ord : Nat) (s : DBState),
    (∀ v ∈ items, v.hasField cm.primaryKey = true) →
    (∀ v ∈ items, ∃ r ∈ s.compRows,
      (r.uid == cm.uid &&
        idMatches (v.getField cm.primaryKey) r.id) = true) →
    (updateRepeatableItems cm eid key items ord s).1 = Except.ok () ∧
    ((updateRepeatableItems cm eid key items ord s).2).compRows.map
      (fun r => (r.uid, r.id)) = s.compRows.map (fun r => (r.uid, r.id)) ∧
    ((updateRepeatableItems cm eid key items ord s).2).joins.map
      (fun j => (j.entryId, j.componentType, j.componentId, j.field)) =
      s.joins.map
        (fun j => (j.entryId, j.componentType, j.componentId, j.field)) := by
  intro items
  induction items with
  | nil => intro ord s _ _; exact ⟨rfl, rfl, rfl⟩
  | cons v rest ih =>
    intro ord s hhas hrows
    have hv := hhas v (List.mem_cons_self v rest)
    have hfindex := hrows v (List.mem_cons_self v rest)
    cases hf : s.compRows.find? (fun r => r.uid == cm.uid &&
        idMatches (v.getField cm.primaryKey) r.id) with
    | none =>
      obtain ⟨r, hr, hpr⟩ := hfindex
      have := List.find?_eq_none.mp hf r hr
      rw [hpr] at this
      exact absurd rfl this
    | some row =>
      have hpatch := updateOrCreate_patch cm eid key v ord s row hv hf
      unfold updateRepeatableItems
      cases hu : updateOrCreateComponentAndLink cm eid key v ord s with
      | mk r1 s1 =>
        rw [hu] at hpatch
        cases r1 with
        | error e => exact absurd hpatch.1 (by simp)
        | ok u =>
          dsimp only
          have hkeymap : s1.compRows.map (fun r => (r.uid, r.id)) =
              s.compRows.map (fun r => (r.uid, r.id)) := hpatch.2.1
          have hquad : s1.joins.map
              (fun j => (j.entryId, j.componentType, j.componentId, j.field)) =
              s.joins.map
                (fun j => (j.entryId, j.componentType, j.componentId, j.field)) := by
            rw [hpatch.2.2]
            exact map_map_eq_of_comp _ _ _ (fun j => by split <;> rfl)
          have hrest := ih (ord + 1) s1
            (fun w hw => hhas w (List.mem_cons_of_mem v hw))
            (fun w hw => by
              have hx := hrows w (List.mem_cons_of_mem v hw)
              exact exists_mem_of_map_eq (fun r => (r.uid, r.id)) s.compRows
                s1.compRows hkeymap.symm
                (fun p => p.1 == cm.uid &&
                  idMatches (w.getField cm.primaryKey) p.2) hx)
          exact ⟨hrest.1, hrest.2.1.trans hkeymap, hrest.2.2.trans hquad⟩

/-- C3: reconciliation of a repeatable component field by
`updateComponents`. (1) The deleted id set is exactly the existing joined
ids minus the supplied ids; (2) under no-sharing of component ids across
entities, exactly the join records of `(entry, field)` and the component
instances carrying those ids are removed; (3) an item carrying an existing
component id patches that instance in place — no (uid, id) pair changes —
and patches its join record's order; (4) an item without an id creates a
new component instance and join record at the item's order; (5) an update
whose supplied ids cover the existing ids, every item carrying an id of an
existing instance, creates zero and deletes zero component rows and
preserves every join record's identifying columns. -/
theorem componentSetReconciliation (reg : Registry) (eid : Nat)
    (values : List (String × JVal)) (key : String) (attr : AttrDef)
    (v : JVal) (cm : ComponentModel) (ord : Nat) (s : DBState) :
    (∀ idStr, idStr ∈ (existingIds s eid key).filter
        (fun id => !(suppliedIds v cm).contains id) ↔
      (idStr ∈ existingIds s eid key ∧ idStr ∉ suppliedIds v cm)) ∧
    ((suppliedIds v cm).all
        (fun id => (existingIds s eid key).contains id) = true →
      (∀ j1 ∈ s.joins, ∀ j2 ∈ s.joins, j1.field = j2.field →
        toString j1.componentId = toString j2.componentId →
        j1.entryId = j2.entryId) →
      deleteOldComponents eid v key cm s =
        (Except.ok (),
         { s with
           joins := s.joins.filter (fun j =>
             !(j.entryId == eid && j.field == key &&
               ((existingIds s eid key).filter
                 (fun id => !(suppliedIds v cm).contains id)).contains
                   (toString j.componentId)))
           compRows := s.compRows.filter (fun r =>
             !(r.uid == cm.uid &&
               ((existingIds s eid key).filter
                 (fun id => !(suppliedIds v cm).contains id)).contains
                   (toString r.id))) })) ∧
    (∀ row, v.hasField cm.primaryKey = true →
      s.compRows.find? (fun r => r.uid == cm.uid &&
        idMatches (v.getField cm.primaryKey) r.id) = some row →
      (updateOrCreateComponentAndLink cm eid key v ord s).1 =
        Except.ok () ∧
      ((updateOrCreateComponentAndLink cm eid key v ord s).2).compRows.map
        (fun r => (r.uid, r.id)) = s.compRows.map (fun r => (r.uid, r.id)) ∧
      ((updateOrCreateComponentAndLink cm eid key v ord s).2).joins =
        s.joins.map (fun j =>
          if j.entryId == eid && j.componentType == cm.collectionName &&
              j.componentId == row.id && j.field == key then
            { j with order := ord }
          else j)) ∧
    (v.hasField cm.primaryKey = false →
      updateOrCreateComponentAndLink cm eid key v ord s =
        (Except.ok (),
         { s with
           nextId := s.nextId + 1
           compRows := s.compRows ++ [⟨cm.uid, s.nextId, v⟩]
           joins := s.joins ++
             [⟨eid, cm.collectionName, s.nextId, key, ord⟩] })) ∧
    (∀ items cm2, attr.type = "component" → attr.repeatable = true →
      hasKey values key = true → lookupVal values key = varr items →
      validateRepeatableInput (varr items) key attr = Except.ok () →
      reg.lookup attr.component = some cm2 →
      (∀ w ∈ items, w.hasField cm2.primaryKey = true) →
      (suppliedIds (varr items) cm2).all
        (fun id => (existingIds s eid key).contains id) = true →
      (∀ id ∈ existingIds s eid key,
        (suppliedIds (varr items) cm2).contains id = true) →
      (∀ w ∈ items, ∃ r ∈ s.compRows,
        (r.uid == cm2.uid &&
          idMatches (w.getField cm2.primaryKey) r.id) = true) →
      (updateComponentsKey reg eid values key attr s).1 = Except.ok () ∧
      ((updateComponentsKey reg eid values key attr s).2).compRows.map
        (fun r => (r.uid, r.id)) = s.compRows.map (fun r => (r.uid, r.id)) ∧
      ((updateComponentsKey reg eid values key attr s).2).joins.map
        (fun j => (j.entryId, j.componentType, j.componentId, j.field)) =
        s.joins.map
          (fun j => (j.entryId, j.componentType, j.componentId, j.field))) := by
  refine ⟨?_, ?_, ?_, ?_, ?_⟩
  · intro idStr
    rw [List.mem_filter]
    constructor
    · rintro ⟨h1, h2⟩
      refine ⟨h1, ?_⟩
      intro hmem
      have := List.elem_iff.mpr hmem
      rw [show (suppliedIds v cm).contains idStr = true from this] at h2
      cases h2
    · rintro ⟨h1, h2⟩
      refine ⟨h1, ?_⟩
      cases hc : (suppliedIds v cm).contains idStr with
      | false => rfl
      | true => exact absurd (List.elem_iff.mp hc) h2
  · intro hkeep ho
    exact deleteOldComponents_success eid v key cm s hkeep ho
  · intro row hhas hfind
    exact updateOrCreate_patch cm eid key v ord s row hhas hfind
  · intro hhas
    exact updateOrCreate_create cm eid key v ord s hhas
  · intro items cm2 htype hrep hkey hvv hval hlook hhasall hsub hsup hrows
    have hstep : updateComponentsKey reg eid values key attr s =
        updateRepeatableItems cm2 eid key items 1 s := by
      simp [updateComponentsKey, hkey, htype, hrep, hvv, hval, hlook,
        deleteOldComponents_noop eid (varr items) key cm2 s hsub hsup]
    rw [hstep]
    exact updateRepeatableItems_noop cm2 eid key items 1 s hhasall hrows

/-- Entity 1 owning two `default.sec` instances (ids 10, 11) under field
`sections`, at orders 1 and 2. -/
def twoSecDB : DBState :=
  ⟨[⟨1, [("title", vstr "A")]⟩],
   [⟨"default.sec", 10, vobj [("text", vstr "x")]⟩,
    ⟨"default.sec", 11, vobj [("text", vstr "y")]⟩],
   [⟨1, "components_secs", 10, "sections", 1⟩,
    ⟨1, "components_secs", 11, "sections", 2⟩],
   [], 12⟩

/-- Witness for C3, the §8 scenario: with sections 10 and 11 joined,
updating with only `{id: 10}` deletes exactly section 11's join row and
instance; the kept item patches in place with its order set; an id-less
item is created at the supplied order; and an update supplying exactly
`{id: 11}, {id: 10}` creates and deletes nothing. -/
theorem componentSetReconciliation_witness :
    ("11" ∈ (existingIds twoSecDB 1 "sections").filter
      (fun id => !(suppliedIds (varr [vobj [("id", vnum 10)]])
        secModel).contains id)) ∧
    deleteOldComponents 1 (varr [vobj [("id", vnum 10)]]) "sections"
      secModel twoSecDB =
      (Except.ok (),
       ⟨[⟨1, [("title", vstr "A")]⟩],
        [⟨"default.sec", 10, vobj [("text", vstr "x")]⟩],
        [⟨1, "components_secs", 10, "sections", 1⟩], [], 12⟩) ∧
    ((updateOrCreateComponentAndLink secModel 1 "sections"
        (vobj [("id", vnum 10), ("text", vstr "x2")]) 1 twoSecDB).1 =
      Except.ok () ∧
     ((updateOrCreateComponentAndLink secModel 1 "sections"
        (vobj [("id", vnum 10), ("text", vstr "x2")]) 1 twoSecDB).2).compRows.map
        (fun r => (r.uid, r.id)) =
      twoSecDB.compRows.map (fun r => (r.uid, r.id))) ∧
    updateOrCreateComponentAndLink secModel 1 "sections"
      (vobj [("text", vstr "z")]) 3 twoSecDB =
      (Except.ok (),
       ⟨[⟨1, [("title", vstr "A")]⟩],
        [⟨"default.sec", 10, vobj [("text", vstr "x")]⟩,
         ⟨"default.sec", 11, vobj [("text", vstr "y")]⟩,
         ⟨"default.sec", 12, vobj [("text", vstr "z")]⟩],
        [⟨1, "components_secs", 10, "sections", 1⟩,
         ⟨1, "components_secs", 11, "sections", 2⟩,
         ⟨1, "components_secs", 12, "sections", 3⟩], [], 13⟩) ∧
    ((updateComponentsKey fixtureReg 1
        [("sections", varr [vobj [("id", vnum 11)], vobj [("id", vnum 10)]])]
        "sections" secAttr twoSecDB).1 = Except.ok () ∧
     ((updateComponentsKey fixtureReg 1
        [("sections", varr [vobj [("id", vnum 11)], vobj [("id", vnum 10)]])]
        "sections" secAttr twoSecDB).2).compRows.map
        (fun r => (r.uid, r.id)) =
      twoSecDB.compRows.map (fun r => (r.uid, r.id)) ∧
     ((updateComponentsKey fixtureReg 1
        [("sections", varr [vobj [("id", vnum 11)], vobj [("id", vnum 10)]])]
        "sections" secAttr twoSecDB).2).joins.map
        (fun j => (j.entryId, j.componentType, j.componentId, j.field)) =
      twoSecDB.joins.map
        (fun j => (j.entryId, j.componentType, j.componentId, j.field))) := by
  have hown : ∀ j1 ∈ twoSecDB.joins, ∀ j2 ∈ twoSecDB.joins,
      j1.field = j2.field → toString j1.componentId = toString j2.componentId →
      j1.entryId = j2.entryId := by
    intro j1 hj1 j2 hj2 _ _
    rw [show twoSecDB.joins =
      [⟨1, "components_secs", 10, "sections", 1⟩,
       ⟨1, "components_secs", 11, "sections", 2⟩] from rfl] at hj1 hj2
    rcases List.mem_cons.mp hj1 with h1 | h1
    · rcases List.mem_cons.mp hj2 with h2 | h2
      · rw [h1, h2]
      · rw [h1, List.mem_singleton.mp h2]
    · rcases List.mem_cons.mp hj2 with h2 | h2
      · rw [List.mem_singleton.mp h1, h2]
      · rw [List.mem_singleton.mp h1, List.mem_singleton.mp h2]
  refine ⟨?_, ?_, ?_, ?_, ?_⟩
  · refine (componentSetReconciliation fixtureReg 1 [] "sections" secAttr
      (varr [vobj [("id", vnum 10)]]) secModel 1 twoSecDB).1 "11" |>.mpr
      ⟨?_, ?_⟩
    · rw [show existingIds twoSecDB 1 "sections" = ["10", "11"] from rfl]
      exact List.mem_cons_of_mem _ (List.mem_singleton.mpr rfl)
    · rw [show suppliedIds (varr [vobj [("id", vnum 10)]]) secModel =
        ["10"] from rfl]
      intro hmem
      rw [List.mem_singleton] at hmem
      exact absurd hmem (by decide)
  · exact (componentSetReconciliation fixtureReg 1 [] "sections" secAttr
      (varr [vobj [("id", vnum 10)]]) secModel 1 twoSecDB).2.1 rfl hown
  · exact ((componentSetReconciliation fixtureReg 1 [] "sections" secAttr
      (vobj [("id", vnum 10), ("text", vstr "x2")]) secModel 1
      twoSecDB).2.2.1 ⟨"default.sec", 10, vobj [("text", vstr "x")]⟩ rfl
      rfl).imp id (fun h => h.1)
  · exact (componentSetReconciliation fixtureReg 1 [] "sections" secAttr
      (vobj [("text", vstr "z")]) secModel 3 twoSecDB).2.2.2.1 rfl
  · refine (componentSetReconciliation fixtureReg 1
      [("sections", varr [vobj [("id", vnum 11)], vobj [("id", vnum 10)]])]
      "sections" secAttr vnull secModel 1 twoSecDB).2.2.2.2
      [vobj [("id", vnum 11)], vobj [("id", vnum 10)]] secModel rfl rfl rfl
      rfl rfl rfl ?_ rfl ?_ ?_
    · intro w hw
      rcases List.mem_cons.mp hw with h | h
      · rw [h]; rfl
      · rw [List.mem_singleton.mp h]; rfl
    · intro id hid
      rw [show existingIds twoSecDB 1 "sections" = ["10", "11"] from rfl]
        at hid
      rcases List.mem_cons.mp hid with h | h
      · rw [h]; rfl
      · rw [List.mem_singleton.mp h]; rfl
    · intro w hw
      rcases List.mem_cons.mp hw with h | h
      · refine ⟨⟨"default.sec", 11, vobj [("text", vstr "y")]⟩, ?_, ?_⟩
        · exact List.mem_cons_of_mem _ (List.mem_singleton.mpr rfl)
        · rw [h]; rfl
      · refine ⟨⟨"default.sec", 10, vobj [("text", vstr "x")]⟩, ?_, ?_⟩
        · exact List.mem_cons_self _ _
        · rw [List.mem_singleton.mp h]; rfl

end Strapi
